import Mathlib

/-
  Shallow embedding of the traffic simulator core
  (src/vehicle.py, src/trafficSimulation.py) over exact rationals.

  Python floats are modelled as rationals; `np.sqrt` is modelled as an
  abstract function parameter `sq : ℚ → ℚ` threaded through every
  definition that the source feeds through `np.sqrt` (the source only
  ever applies it to `max_acceleration * comfortable_deceleration`).
  Python's `float('inf')` is modelled with `Option`/`WithTop`.
  Runtime errors (Python `IndexError` from `list.pop`) are modelled by
  returning `none`.
-/

namespace Traffic

/-- Driver types, from vehicle.py (class DriverType). -/
inductive DriverType
  | aggressive
  | normal
  | cautious
  | polite
  | submissive
  | obstacle
deriving DecidableEq

/-- Vehicle state, from vehicle.py (Vehicle.__init__).  The IDM and MOBIL
driver parameters are functions of `driver_type` (set once by
`set_driver_parameters` and never mutated), so they are embedded as pure
functions of the tag rather than stored fields.  Purely visual fields
(width, vis_height, vis_width, color) are omitted.  The constant fields
`distraction_check_interval = 1.0` and `distraction_probability = 0.005`
are inlined as literals where used.  `obstacle_end_time = none` encodes
`float('inf')`. -/
structure Vehicle where
  vid : Int
  position : ℚ
  velocity : ℚ
  lane : Nat
  desired_velocity : ℚ
  length : ℚ
  acceleration : ℚ
  driver_type : DriverType
  obstacle_start_time : ℚ
  obstacle_end_time : Option ℚ
  is_active : Bool
  can_be_distracted : Bool
  is_distracted : Bool
  distraction_start_time : ℚ
  distraction_duration : ℚ
  last_distraction_check : ℚ
  saved_velocity : Option ℚ
deriving DecidableEq

/-- time_headway per driver type (set_driver_parameters). -/
def DriverType.time_headway : DriverType → ℚ
  | .aggressive => 3/2
  | .normal => 3/2
  | .cautious => 11/5
  | .polite => 3/2
  | .submissive => 5/2
  | .obstacle => 0

/-- min_gap per driver type (set_driver_parameters). -/
def DriverType.min_gap : DriverType → ℚ
  | .aggressive => 3/2
  | .normal => 2
  | .cautious => 3
  | .polite => 2
  | .submissive => 7/2
  | .obstacle => 0

/-- max_acceleration per driver type (set_driver_parameters). -/
def DriverType.max_acceleration : DriverType → ℚ
  | .aggressive => 2
  | .normal => 3/2
  | .cautious => 6/5
  | .polite => 3/2
  | .submissive => 1
  | .obstacle => 0

/-- comfortable_deceleration per driver type (set_driver_parameters). -/
def DriverType.comfortable_deceleration : DriverType → ℚ
  | .aggressive => 3
  | .normal => 2
  | .cautious => 3/2
  | .polite => 2
  | .submissive => 3/2
  | .obstacle => 0

/-- acceleration exponent `delta` per driver type; the source stores the
float 4.0 (0 for obstacles) and only uses it as an exponent on a
non-negative base, so it is embedded as a natural number. -/
def DriverType.delta : DriverType → Nat
  | .obstacle => 0
  | _ => 4

/-- politeness per driver type (set_driver_parameters). -/
def DriverType.politeness : DriverType → ℚ
  | .aggressive => 1/10
  | .normal => 3/10
  | .cautious => 3/10
  | .polite => 7/10
  | .submissive => 4/5
  | .obstacle => 0

/-- changing_threshold per driver type; `float('inf')` for obstacles is
encoded as `none`. -/
def DriverType.changing_threshold : DriverType → Option ℚ
  | .aggressive => some 0
  | .normal => some (1/10)
  | .cautious => some (1/5)
  | .polite => some (1/5)
  | .submissive => some (3/10)
  | .obstacle => none

/-- `a > t` for a threshold that may be `float('inf')` (`none`): a float
compares below infinity. -/
def gtThreshold (a : ℚ) : Option ℚ → Prop
  | none => False
  | some t => a > t

instance (a : ℚ) (o : Option ℚ) : Decidable (gtThreshold a o) := by
  cases o with
  | none => exact isFalse (fun h => h)
  | some t => exact inferInstanceAs (Decidable (a > t))

/-- `d < m` for a running minimum that may still be `float('inf')`
(`none`): everything compares below infinity. -/
def ltMinSoFar (d : ℚ) : Option ℚ → Prop
  | none => True
  | some m => d < m

instance (d : ℚ) (o : Option ℚ) : Decidable (ltMinSoFar d o) := by
  cases o with
  | none => exact isTrue trivial
  | some m => exact inferInstanceAs (Decidable (d < m))

/-- safe_deceleration per driver type (set_driver_parameters). -/
def DriverType.safe_deceleration : DriverType → ℚ
  | .aggressive => 5
  | .normal => 4
  | .cautious => 3
  | .polite => 4
  | .submissive => 5/2
  | .obstacle => 0

/-- right_bias per driver type (set_driver_parameters). -/
def DriverType.right_bias : DriverType → ℚ
  | .aggressive => 1/10
  | .normal => 3/10
  | .cautious => 2/5
  | .polite => 2/5
  | .submissive => 1/2
  | .obstacle => 0

/-- The raw bumper-to-bumper gap used by idm_acceleration:
`lead_vehicle.position - self.position - lead_vehicle.length`. -/
def Vehicle.idmRawGap (self g : Vehicle) : ℚ :=
  g.position - self.position - g.length

/-- The gap after the circular-boundary adjustment in idm_acceleration:
both the `gap < -lead_vehicle.length / 2` branch and the `gap < 0`
branch add `road_length`. -/
def Vehicle.idmAdjustedGap (self g : Vehicle) (road_length : ℚ) : ℚ :=
  let gap := self.idmRawGap g
  if gap < -g.length / 2 then gap + road_length
  else if gap < 0 then gap + road_length
  else gap

/-- The divisor actually used in the IDM interaction term:
`max(gap, 0.1)` applied to the adjusted gap. -/
def Vehicle.idmEffectiveGap (self g : Vehicle) (road_length : ℚ) : ℚ :=
  max (self.idmAdjustedGap g road_length) (1/10)

/-- The IDM free-road acceleration term:
`max_acceleration * (1 - (velocity / desired_velocity) ** delta)`. -/
def Vehicle.aFree (self : Vehicle) : ℚ :=
  self.driver_type.max_acceleration *
    (1 - (self.velocity / self.desired_velocity) ^ self.driver_type.delta)

/-- The IDM desired gap `s_star`:
`min_gap + max(0, v*T + v*Δv / (2*sqrt(A*B)))`. -/
def Vehicle.sStar (sq : ℚ → ℚ) (self g : Vehicle) : ℚ :=
  self.driver_type.min_gap +
    max 0 (self.velocity * self.driver_type.time_headway +
      self.velocity * (self.velocity - g.velocity) /
        (2 * sq (self.driver_type.max_acceleration *
                 self.driver_type.comfortable_deceleration)))

/-- Vehicle.idm_acceleration from vehicle.py.  The Python default
`road_length=1000` is passed explicitly at every call site that relies
on it. -/
def Vehicle.idm_acceleration (sq : ℚ → ℚ) (self : Vehicle)
    (lead_vehicle : Option Vehicle) (road_length : ℚ) : ℚ :=
  if self.driver_type = DriverType.obstacle then 0
  else
    match lead_vehicle with
    | none => self.aFree
    | some g =>
      let a_int := -self.driver_type.max_acceleration *
        (Vehicle.sStar sq self g / self.idmEffectiveGap g road_length) ^ 2
      self.aFree + a_int

/-- The signed distance from `self` to `v` with the circular-boundary
adjustment used by find_neighbors. -/
def Vehicle.neighborDistance (self v : Vehicle) (road_length : ℚ) : ℚ :=
  let d := v.position - self.position
  if d > road_length / 2 then d - road_length
  else if d < -road_length / 2 then d + road_length
  else d

/-- Accumulator of the find_neighbors scan: best leader/follower so far
with their distances (`none` encodes the initial `float('inf')`). -/
structure NeighborAcc where
  lead : Option Vehicle
  min_lead_distance : Option ℚ
  follow : Option Vehicle
  min_follow_distance : Option ℚ

/-- One step of the find_neighbors scan over a candidate vehicle. -/
def Vehicle.neighborStep (self : Vehicle) (lane : Nat) (road_length : ℚ)
    (acc : NeighborAcc) (v : Vehicle) : NeighborAcc :=
  if v.vid = self.vid ∨ v.lane ≠ lane ∨ v.is_active = false then acc
  else
    let d := self.neighborDistance v road_length
    let acc1 :=
      if 0 < d ∧ ltMinSoFar d acc.min_lead_distance then
        { acc with lead := some v, min_lead_distance := some d }
      else acc
    if d < 0 ∧ ltMinSoFar |d| acc1.min_follow_distance then
      { acc1 with follow := some v, min_follow_distance := some |d| }
    else acc1

/-- Vehicle.find_neighbors from vehicle.py: nearest leader and follower
of `self` in `lane`, skipping `self` (by id) and inactive vehicles. -/
def Vehicle.find_neighbors (self : Vehicle) (vehicles : List Vehicle)
    (lane : Nat) (road_length : ℚ) : Option Vehicle × Option Vehicle :=
  let r := vehicles.foldl (Vehicle.neighborStep self lane road_length)
    ⟨none, none, none, none⟩
  (r.lead, r.follow)

/-- The hypothetical copy of the ego built by is_lane_change_safe and
calculate_lane_change_advantage: the Vehicle constructor with id -1,
the ego's position, velocity, desired_velocity, length and driver_type,
the given lane, and all remaining constructor defaults
(obstacle_start_time=0, obstacle_end_time=inf, hence is_active=True;
can_be_distracted=True). -/
def Vehicle.selfClone (self : Vehicle) (lane : Nat) : Vehicle where
  vid := -1
  position := self.position
  velocity := self.velocity
  lane := lane
  desired_velocity := self.desired_velocity
  length := self.length
  acceleration := 0
  driver_type := self.driver_type
  obstacle_start_time := 0
  obstacle_end_time := none
  is_active := true
  can_be_distracted := true
  is_distracted := false
  distraction_start_time := 0
  distraction_duration := 0
  last_distraction_check := 0
  saved_velocity := none

/-- The gap to the prospective new leader computed inside
is_lane_change_safe (single circular adjustment branch). -/
def Vehicle.safetyGap (self g : Vehicle) (road_length : ℚ) : ℚ :=
  let gap := g.position - self.position - g.length
  if gap < 0 then gap + road_length else gap

/-- Vehicle.is_lane_change_safe from vehicle.py.  Note both inner
idm_acceleration calls in the source use the Python default
road_length=1000, not the simulation's road length. -/
def Vehicle.is_lane_change_safe (sq : ℚ → ℚ) (self : Vehicle)
    (lead_target follow_target : Option Vehicle) (road_length : ℚ) : Bool :=
  let okLead :=
    match lead_target with
    | none => true
    | some g => decide (¬ self.safetyGap g road_length < self.driver_type.min_gap)
  if okLead then
    match follow_target with
    | none => true
    | some f =>
      let self_clone := self.selfClone f.lane
      let new_follower_acc := Vehicle.idm_acceleration sq f (some self_clone) 1000
      decide (¬ new_follower_acc < -self.driver_type.safe_deceleration)
  else false

/-- Vehicle.calculate_lane_change_advantage from vehicle.py.  All inner
idm_acceleration calls use the Python default road_length=1000. -/
def Vehicle.calculate_lane_change_advantage (sq : ℚ → ℚ) (self : Vehicle)
    (current_acc : ℚ) (lead_current follow_current : Option Vehicle)
    (lead_target follow_target : Option Vehicle) (target_lane : Nat) : ℚ :=
  let self_clone := self.selfClone target_lane
  let new_acc := Vehicle.idm_acceleration sq self_clone lead_target 1000
  let acc_gain := new_acc - current_acc
  let disadvantage_follower :=
    match follow_target with
    | none => 0
    | some f =>
      let old_follower_acc := Vehicle.idm_acceleration sq f lead_target 1000
      let new_follower_acc := Vehicle.idm_acceleration sq f (some self_clone) 1000
      old_follower_acc - new_follower_acc
  let disadvantage_old_follower :=
    match follow_current with
    | none => 0
    | some f =>
      let old_acc := Vehicle.idm_acceleration sq f (some self) 1000
      let new_acc2 := Vehicle.idm_acceleration sq f lead_current 1000
      max 0 (old_acc - new_acc2)
  acc_gain - self.driver_type.politeness *
    (disadvantage_follower + disadvantage_old_follower)

/-- The advantage of `target_lane` as mobil_decide_lane_change computes
it: the utility of calculate_lane_change_advantage against the target
lane's neighbors, plus the right-lane bias when the target lane index
is greater than the current one. -/
def Vehicle.mobilBiasedAdvantage (sq : ℚ → ℚ) (self : Vehicle)
    (vehicles : List Vehicle) (road_length : ℚ) (current_acc : ℚ)
    (lead_current follow_current : Option Vehicle) (target_lane : Nat) : ℚ :=
  let nt := self.find_neighbors vehicles target_lane road_length
  let advantage0 := self.calculate_lane_change_advantage sq current_acc
    lead_current follow_current nt.1 nt.2 target_lane
  if target_lane > self.lane then advantage0 + self.driver_type.right_bias
  else advantage0

/-- One candidate-lane iteration of the mobil_decide_lane_change loop:
given the running (best_lane, max_advantage) pair, examine
`target_lane`. -/
def Vehicle.mobilConsider (sq : ℚ → ℚ) (self : Vehicle)
    (vehicles : List Vehicle) (road_length : ℚ) (current_acc : ℚ)
    (lead_current follow_current : Option Vehicle)
    (acc : Nat × ℚ) (target_lane : Nat) : Nat × ℚ :=
  let nt := self.find_neighbors vehicles target_lane road_length
  if self.is_lane_change_safe sq nt.1 nt.2 road_length then
    let advantage := self.mobilBiasedAdvantage sq vehicles road_length
      current_acc lead_current follow_current target_lane
    if advantage > acc.2 ∧
        gtThreshold advantage self.driver_type.changing_threshold then
      (target_lane, advantage)
    else acc
  else acc

/-- Vehicle.mobil_decide_lane_change from vehicle.py. -/
def Vehicle.mobil_decide_lane_change (sq : ℚ → ℚ) (self : Vehicle)
    (vehicles : List Vehicle) (lanes_count : Nat) (road_length : ℚ) : Nat :=
  if self.driver_type = DriverType.obstacle then self.lane
  else if self.is_distracted then self.lane
  else
    let current_acc := self.acceleration
    let nc := self.find_neighbors vehicles self.lane road_length
    let possible_lanes :=
      (if self.lane > 0 then [self.lane - 1] else []) ++
      (if self.lane < lanes_count - 1 then [self.lane + 1] else [])
    let r := possible_lanes.foldl
      (Vehicle.mobilConsider sq self vehicles road_length current_acc nc.1 nc.2)
      (self.lane, 0)
    r.1

/-- The pseudo-random draws one call of Vehicle.update may consume:
`distraction_roll` is the `random.random()` of check_distraction,
`duration_draw` the `random.uniform(3.0, 5.0)` of check_distraction,
and `lane_roll` the `random.random()` gating lane-change evaluation. -/
structure Oracle where
  distraction_roll : ℚ
  duration_draw : ℚ
  lane_roll : ℚ

/-- Vehicle.check_distraction from vehicle.py.  The constants
`distraction_check_interval = 1.0` and `distraction_probability = 0.005`
are the (never-mutated) instance fields of the source. -/
def Vehicle.check_distraction (o : Oracle) (self : Vehicle)
    (current_time : ℚ) : Vehicle :=
  if self.driver_type = DriverType.obstacle ∨ self.can_be_distracted = false then
    self
  else if self.is_distracted then
    if current_time ≥ self.distraction_start_time + self.distraction_duration then
      { self with is_distracted := false, saved_velocity := none }
    else self
  else if current_time - self.last_distraction_check ≥ 1 then
    let s := { self with last_distraction_check := current_time }
    if o.distraction_roll < 1/200 then
      { s with is_distracted := true,
               distraction_start_time := current_time,
               distraction_duration := o.duration_draw,
               saved_velocity := some s.velocity }
    else s
  else self

/-- The velocity produced by the update step of vehicle.py for a
non-obstacle vehicle, given the already-refreshed distraction state
`s` and the leader found in its lane: the normal clamped IDM
integration when not distracted, otherwise the emergency-braking
check. -/
def Vehicle.updatedVelocity (s : Vehicle) (lead_vehicle : Option Vehicle)
    (dt road_length : ℚ) : ℚ :=
  if s.is_distracted = false then
    max 0 (min (s.velocity + s.acceleration * dt) (2 * s.desired_velocity))
  else
    match lead_vehicle with
    | none => s.velocity
    | some g =>
      let gap0 := g.position - s.position - g.length
      let gap := if gap0 < 0 then gap0 + road_length else gap0
      let safe_gap := s.driver_type.min_gap + s.velocity * 1
      if gap < safe_gap then
        let deceleration :=
          min (s.driver_type.comfortable_deceleration * (3/2)) (s.velocity / dt)
        s.velocity - deceleration * dt
      else s.velocity

/-- Vehicle.update from vehicle.py: obstacle activation, distraction
refresh, IDM acceleration from the current lane's leader, velocity
update (normal or distracted-emergency), position update with the
circular wrap, and the Bernoulli(0.1)-gated MOBIL lane change. -/
def Vehicle.update (sq : ℚ → ℚ) (o : Oracle) (self : Vehicle) (dt : ℚ)
    (vehicles : List Vehicle) (lanes_count : Nat) (road_length : ℚ)
    (current_time : ℚ) (change_lanes : Bool) : Vehicle :=
  let isObstacle := self.driver_type = DriverType.obstacle
  let ltEnd : Bool :=
    match self.obstacle_end_time with
    | none => true
    | some e => decide (current_time < e)
  let newActive : Bool := decide (self.obstacle_start_time ≤ current_time) && ltEnd
  let s0 := if isObstacle then { self with is_active := newActive } else self
  if isObstacle ∧ s0.is_active = false then s0
  else
    let s1 := Vehicle.check_distraction o s0 current_time
    let lead_vehicle := (s1.find_neighbors vehicles s1.lane road_length).1
    let s2 := { s1 with
      acceleration := Vehicle.idm_acceleration sq s1 lead_vehicle road_length }
    if isObstacle then s2
    else
      let s3 := { s2 with
        velocity := Vehicle.updatedVelocity s2 lead_vehicle dt road_length }
      let p := s3.position + s3.velocity * dt
      let s4 := { s3 with
        position := if p > road_length then p - road_length else p }
      if change_lanes = true ∧ s4.is_distracted = false ∧ o.lane_roll < 1/10 then
        { s4 with lane :=
            Vehicle.mobil_decide_lane_change sq s4 vehicles lanes_count road_length }
      else s4

/-- A scheduled-vehicle entry (the dict appended by the GUI and consumed
by TrafficSimulation.deploy_scheduled_vehicle).  `initial_position =
none` models a dict without the key (the source reads it with
`.get('initial_position', 0)`). -/
structure Sched where
  deployment_time : ℚ
  initial_position : Option ℚ
  lane : Nat
  desired_velocity : ℚ
  driver_type : DriverType
  is_distracted : Bool
deriving DecidableEq

/-- A static obstacle dict from TrafficSimulation.add_obstacle (the
visual width/height fields are omitted; the overlap checks use the
literal 20). -/
structure Obstacle where
  position : ℚ
  lane : Nat
deriving DecidableEq

/-- The TrafficSimulation state relevant to the tick loop; fields used
only by the GUI/animation (figure handles, fast_forward, to_print,
debug, driver sampling scratch) are omitted.  `lane_distributions`
records the list of vehicle lanes at each tick, which determines the
per-lane count dict the source appends. -/
structure World where
  road_length : ℚ
  lanes_count : Nat
  dt : ℚ
  time : ℚ
  vehicles : List Vehicle
  scheduled_vehicles : List Sched
  obstacles : List Obstacle
  is_paused : Bool
  lane_changes : Nat
  average_speeds : List ℚ
  lane_distributions : List (List Nat)
deriving DecidableEq

/-- One iteration of the spawn-conflict `while` body in
deploy_scheduled_vehicle: scan vehicles (first conflict advances the
position by 25 and breaks), then scan obstacles likewise, then wrap to
position 0 and the next lane when the position passed the road end.
Returns (overlap, lane, position). -/
def spawnAttempt (vehicles : List Vehicle) (obstacles : List Obstacle)
    (road_length : ℚ) (lanes_count : Nat) (lane : Nat) (position : ℚ) :
    Bool × Nat × ℚ :=
  let hitV := vehicles.find? fun v =>
    decide (v.lane = lane) && decide (|v.position - position| < max v.length 20)
  let r1 : Bool × ℚ :=
    match hitV with
    | some _ => (true, position + 25)
    | none => (false, position)
  let hitO := obstacles.find? fun ob =>
    decide (ob.lane = lane) && decide (|ob.position - r1.2| < 20)
  let r2 : Bool × ℚ :=
    match hitO with
    | some _ => (true, r1.2 + 25)
    | none => (r1.1, r1.2)
  if r2.2 ≥ road_length then (r2.1, (lane + 1) % lanes_count, 0)
  else (r2.1, lane, r2.2)

/-- The `while overlap and attempts < 5` loop of
deploy_scheduled_vehicle, with `fuel` the remaining attempts. -/
def spawnLoop (vehicles : List Vehicle) (obstacles : List Obstacle)
    (road_length : ℚ) (lanes_count : Nat) :
    Nat → Bool → Nat → ℚ → Bool × Nat × ℚ
  | 0, overlap, lane, position => (overlap, lane, position)
  | fuel + 1, overlap, lane, position =>
    if overlap then
      let r := spawnAttempt vehicles obstacles road_length lanes_count lane position
      spawnLoop vehicles obstacles road_length lanes_count fuel r.1 r.2.1 r.2.2
    else (overlap, lane, position)

/-- The Vehicle constructed by deploy_scheduled_vehicle: id is the
pre-append vehicle count, initial velocity 0.7 of the scheduled desired
velocity, default length 5.0, and `can_be_distracted` taken from the
entry's `is_distracted` field. -/
def mkDeployedVehicle (vid : Int) (position : ℚ) (lane : Nat)
    (info : Sched) : Vehicle where
  vid := vid
  position := position
  velocity := 7/10 * info.desired_velocity
  lane := lane
  desired_velocity := info.desired_velocity
  length := 5
  acceleration := 0
  driver_type := info.driver_type
  obstacle_start_time := 0
  obstacle_end_time := none
  is_active := true
  can_be_distracted := info.is_distracted
  is_distracted := false
  distraction_start_time := 0
  distraction_duration := 0
  last_distraction_check := 0
  saved_velocity := none

/-- Python `list.pop(i)`: removes index `i`; out of range is an
IndexError, modelled as `none`. -/
def popAt (l : List Sched) (i : Nat) : Option (List Sched) :=
  if i < l.length then some (l.take i ++ l.drop (i + 1)) else none

/-- The loop of deploy_scheduled_vehicle: `enumerate` iterates over a
snapshot copy of the schedule while `pop(i)` mutates the live list; a
dropped entry continues the loop, a successful deployment breaks it. -/
def deployGo (obstacles : List Obstacle) (road_length : ℚ)
    (lanes_count : Nat) (time : ℚ) :
    Nat → List Sched → List Sched → List Vehicle →
    Option (List Sched × List Vehicle)
  | _, [], live, vehicles => some (live, vehicles)
  | i, info :: rest, live, vehicles =>
    if info.deployment_time ≤ time then
      let r := spawnLoop vehicles obstacles road_length lanes_count 5 true
        info.lane (info.initial_position.getD 0)
      if r.1 then
        match popAt live i with
        | none => none
        | some live2 =>
          deployGo obstacles road_length lanes_count time (i + 1) rest live2 vehicles
      else
        let nv := mkDeployedVehicle (vehicles.length : Int) r.2.2 r.2.1 info
        match popAt live i with
        | none => none
        | some live2 => some (live2, vehicles ++ [nv])
    else
      deployGo obstacles road_length lanes_count time (i + 1) rest live vehicles

/-- TrafficSimulation.deploy_scheduled_vehicle from trafficSimulation.py. -/
def TrafficSimulation.deploy_scheduled_vehicle (w : World) : Option World :=
  match deployGo w.obstacles w.road_length w.lanes_count w.time 0
      w.scheduled_vehicles w.scheduled_vehicles w.vehicles with
  | none => none
  | some r =>
    some { w with scheduled_vehicles := r.1, vehicles := r.2 }

/-- The in-place vehicle loop of run_step: vehicle `i` is updated
against the list in which vehicles `0..i-1` have already been replaced
by their updated versions (`done`), while `i..` are still pre-step. -/
def updateVehiclesGo (sq : ℚ → ℚ) (os : Nat → Oracle) (dt : ℚ)
    (lanes_count : Nat) (road_length : ℚ) (current_time : ℚ) :
    Nat → List Vehicle → List Vehicle → List Vehicle
  | _, done, [] => done
  | i, done, v :: pending =>
    let v2 := Vehicle.update sq (os i) v dt (done ++ v :: pending)
      lanes_count road_length current_time true
    updateVehiclesGo sq os dt lanes_count road_length current_time
      (i + 1) (done ++ [v2]) pending

/-- The `for vehicle in self.vehicles: vehicle.update(...)` pass of
run_step. -/
def updateAllVehicles (sq : ℚ → ℚ) (os : Nat → Oracle) (dt : ℚ)
    (lanes_count : Nat) (road_length : ℚ) (current_time : ℚ)
    (vehicles : List Vehicle) : List Vehicle :=
  updateVehiclesGo sq os dt lanes_count road_length current_time 0 [] vehicles

/-- Lookup in the `{v.id: v.lane}` dict comprehension: the last entry
for a key wins. -/
def dictLookup (l : List (Int × Nat)) (k : Int) : Option Nat :=
  l.foldl (fun acc p => if p.1 = k then some p.2 else acc) none

/-- TrafficSimulation.run_step from trafficSimulation.py: early return
when paused, deployment, the in-place vehicle update pass, the
lane-change count against the pre-update lane dict, the statistics
appends, and the time advance.  (The debug-only
check_simulation_integrity call only prints and is omitted.) -/
def TrafficSimulation.run_step (sq : ℚ → ℚ) (os : Nat → Oracle)
    (w : World) : Option World :=
  if w.is_paused then some w
  else
    match TrafficSimulation.deploy_scheduled_vehicle w with
    | none => none
    | some w1 =>
      let prev_lanes := w1.vehicles.map fun v => (v.vid, v.lane)
      let vehicles2 := updateAllVehicles sq os w1.dt w1.lanes_count
        w1.road_length w1.time w1.vehicles
      let changed := (vehicles2.filter fun v =>
        decide (dictLookup prev_lanes v.vid ≠ some v.lane)).length
      let avg := if vehicles2.length ≠ 0 then
          (vehicles2.map Vehicle.velocity).sum / (vehicles2.length : ℚ)
        else 0
      some { w1 with
        vehicles := vehicles2
        lane_changes := w1.lane_changes + changed
        average_speeds := w1.average_speeds ++ [avg]
        lane_distributions := w1.lane_distributions ++ [vehicles2.map Vehicle.lane]
        time := w1.time + w1.dt }

/-- The `for i in range(steps): self.run_step()` loop of
run_without_animation, threading the per-step per-vehicle oracles. -/
def runStepsGo (sq : ℚ → ℚ) (oss : Nat → Nat → Oracle) :
    Nat → Nat → World → Option World
  | _, 0, w => some w
  | i, n + 1, w =>
    match TrafficSimulation.run_step sq (oss i) w with
    | none => none
    | some w2 => runStepsGo sq oss (i + 1) n w2

/-- TrafficSimulation.run_without_animation from trafficSimulation.py:
run `steps` steps, then return the mean velocity over the vehicles
present at the end, or -1 when the vehicle list is empty.  (The
`to_print` branch differs only in printing.) -/
def TrafficSimulation.run_without_animation (sq : ℚ → ℚ)
    (oss : Nat → Nat → Oracle) (w : World) (steps : Nat) :
    Option (World × ℚ) :=
  match runStepsGo sq oss 0 steps w with
  | none => none
  | some w2 =>
    let r := if w2.vehicles.length ≠ 0 then
        (w2.vehicles.map Vehicle.velocity).sum / (w2.vehicles.length : ℚ)
      else -1
    some (w2, r)

/-- The two-phase compute-then-apply tick described by the
specification (for comparison with the source's in-place pass): every
vehicle is updated against the unmodified pre-step vehicle list. -/
def specTwoPhaseUpdateAll (sq : ℚ → ℚ) (os : Nat → Oracle) (dt : ℚ)
    (lanes_count : Nat) (road_length : ℚ) (current_time : ℚ)
    (vehicles : List Vehicle) : List Vehicle :=
  vehicles.enum.map fun p =>
    Vehicle.update sq (os p.1) p.2 dt vehicles lanes_count road_length
      current_time true

/-- The MOBIL utility exactly as the claim words it (for comparison
with calculate_lane_change_advantage):
`(a_self_target - a_self_current) - p * ((a_follower_target_after -
a_follower_target_before) + max(0, a_follower_current_after -
a_follower_current_before))`, where `after` means with the ego
(hypothetically) in the target lane. -/
def specClaimedUtility (sq : ℚ → ℚ) (self : Vehicle) (current_acc : ℚ)
    (lead_current follow_current : Option Vehicle)
    (lead_target follow_target : Option Vehicle) (target_lane : Nat) : ℚ :=
  let self_clone := self.selfClone target_lane
  let a_self_target := Vehicle.idm_acceleration sq self_clone lead_target 1000
  let target_follower_term :=
    match follow_target with
    | none => 0
    | some f =>
      let before := Vehicle.idm_acceleration sq f lead_target 1000
      let after := Vehicle.idm_acceleration sq f (some self_clone) 1000
      after - before
  let current_follower_term :=
    match follow_current with
    | none => 0
    | some f =>
      let before := Vehicle.idm_acceleration sq f (some self) 1000
      let after := Vehicle.idm_acceleration sq f lead_current 1000
      max 0 (after - before)
  (a_self_target - current_acc) - self.driver_type.politeness *
    (target_follower_term + current_follower_term)

/-- The MOBIL utility with the follower terms oriented as the source
computes them (for comparison with calculate_lane_change_advantage):
`(a_self_target - current_acc) - p * ((a_follower_target_before -
a_follower_target_after) + max(0, a_follower_current_before -
a_follower_current_after))`. -/
def specCorrectedUtility (sq : ℚ → ℚ) (self : Vehicle) (current_acc : ℚ)
    (lead_current follow_current : Option Vehicle)
    (lead_target follow_target : Option Vehicle) (target_lane : Nat) : ℚ :=
  let self_clone := self.selfClone target_lane
  let a_self_target := Vehicle.idm_acceleration sq self_clone lead_target 1000
  let target_follower_term :=
    match follow_target with
    | none => 0
    | some f =>
      let before := Vehicle.idm_acceleration sq f lead_target 1000
      let after := Vehicle.idm_acceleration sq f (some self_clone) 1000
      before - after
  let current_follower_term :=
    match follow_current with
    | none => 0
    | some f =>
      let before := Vehicle.idm_acceleration sq f (some self) 1000
      let after := Vehicle.idm_acceleration sq f lead_current 1000
      max 0 (before - after)
  (a_self_target - current_acc) - self.driver_type.politeness *
    (target_follower_term + current_follower_term)

/-- A positional-distraction zone, as stored by the GUI
(add_distraction_to_list): center position, range, slowness multiplier,
spawn time and duration. -/
structure PositionalDistraction where
  position : ℚ
  range : ℚ
  slowness : ℚ
  spawn_time : ℚ
  duration : ℚ
deriving DecidableEq

/-- A zone is active when `spawn_time ≤ t < spawn_time + duration`. -/
def PositionalDistraction.activeAt (z : PositionalDistraction) (t : ℚ) : Prop :=
  z.spawn_time ≤ t ∧ t < z.spawn_time + z.duration

instance (z : PositionalDistraction) (t : ℚ) : Decidable (z.activeAt t) :=
  inferInstanceAs (Decidable (_ ∧ _))

/-- Modelled from the spec: one zone's contribution to the running
velocity cap (`none` = no cap yet): an active zone covering the
vehicle's position contributes `slowness * v₀`, composed with any
earlier cap by `min`. -/
def zoneCapStep (t : ℚ) (v : Vehicle) (acc : Option ℚ)
    (z : PositionalDistraction) : Option ℚ :=
  if z.activeAt t ∧ |v.position - z.position| ≤ z.range then
    match acc with
    | none => some (z.slowness * v.desired_velocity)
    | some c => some (min c (z.slowness * v.desired_velocity))
  else acc

/-- Modelled from the spec: no committed code path of the source applies
the stored `slowness` of a positional distraction (the GUI only stores
and displays the zones); section 4.6 of the specification defines the
missing semantics, embedded here: after the normal integration step, a
non-obstacle vehicle with `|x - center| ≤ range` inside each active
zone has its velocity capped at `slowness * v₀`, overlapping zones
composing by the minimum cap. -/
def applyPositionalDistractions (zones : List PositionalDistraction)
    (t : ℚ) (v : Vehicle) : Vehicle :=
  if v.driver_type = DriverType.obstacle then v
  else
    match zones.foldl (zoneCapStep t v) none with
    | none => v
    | some c => { v with velocity := min v.velocity c }

/-- The return value the claim attributes to run_without_animation (for
comparison): the time-average over the run of the recorded per-tick
mean velocities, -1 when none were recorded over a vehicle-less run. -/
def specMeanVelocityOverRun (w : World) : ℚ :=
  if w.average_speeds.length ≠ 0 then
    w.average_speeds.sum / (w.average_speeds.length : ℚ)
  else -1

/-- An abstract stand-in for `np.sqrt` used when evaluating on concrete
inputs; all concrete scenarios below are arranged so the square-root
term is multiplied by zero (equal velocities), making the value of the
stand-in irrelevant. -/
def cSq : ℚ → ℚ := fun _ => 0

/-- Concrete oracle: no fresh distraction draw fires (roll 1 ≥ 0.005)
and the lane-change Bernoulli gate does not fire (roll 1 ≥ 0.1). -/
def cOracle : Oracle where
  distraction_roll := 1
  duration_draw := 4
  lane_roll := 1

/-- Per-vehicle oracles for concrete runs. -/
def cOs : Nat → Oracle := fun _ => cOracle

/-- Per-step per-vehicle oracles for concrete runs. -/
def cOss : Nat → Nat → Oracle := fun _ _ => cOracle

/-- A NORMAL-driver test vehicle with length 5 that cannot be
distracted. -/
def testVehicle (vid : Int) (position velocity : ℚ) (lane : Nat)
    (desired_velocity : ℚ) : Vehicle where
  vid := vid
  position := position
  velocity := velocity
  lane := lane
  desired_velocity := desired_velocity
  length := 5
  acceleration := 0
  driver_type := DriverType.normal
  obstacle_start_time := 0
  obstacle_end_time := none
  is_active := true
  can_be_distracted := false
  is_distracted := false
  distraction_start_time := 0
  distraction_duration := 0
  last_distraction_check := 0
  saved_velocity := none

/-- A world holding exactly the given vehicles on a 1000 m road with
the given lane count, dt = 0.5, empty schedule, no obstacles. -/
def testWorld (lanes_count : Nat) (vehicles : List Vehicle) : World where
  road_length := 1000
  lanes_count := lanes_count
  dt := 1/2
  time := 0
  vehicles := vehicles
  scheduled_vehicles := []
  obstacles := []
  is_paused := false
  lane_changes := 0
  average_speeds := []
  lane_distributions := []

/-- C1 scenario: one vehicle about to cross the end of the road
(position 999, steady velocity 30 = its desired velocity). -/
def cWorld1 : World := testWorld 1 [testVehicle 0 999 30 0 30]

/-- C2 scenario: a leader at 100 and a follower at 50 in the same lane,
both at their shared desired velocity 30. -/
def cLead2 : Vehicle := testVehicle 0 100 30 0 30

/-- The follower of the C2 scenario. -/
def cFoll2 : Vehicle := testVehicle 1 50 30 0 30

/-- The C2 leader after its update: moved to 115 m, velocity kept. -/
def cLead2out : Vehicle := testVehicle 0 115 30 0 30

/-- The C2 follower after the source's in-place pass (it saw the leader
already at 115 m: gap 60). -/
def cFoll2seq : Vehicle :=
  { testVehicle 1 (621791/9600) (141791/4800) 0 30 with
      acceleration := -2209/2400 }

/-- The C2 follower after the specification's two-phase pass (it saw
the leader still at 100 m: gap 45). -/
def cFoll2spec : Vehicle :=
  { testVehicle 1 (348791/5400) (78791/2700) 0 30 with
      acceleration := -2209/1350 }

/-- C3 scenario ego (lane 0, at its desired velocity). -/
def cSelf3 : Vehicle := testVehicle 0 50 30 0 30

/-- C3 scenario target-lane follower behind the ego. -/
def cF3 : Vehicle := testVehicle 2 0 30 1 30

/-- C3 decision-witness ego: stored acceleration -1 so the empty target
lane offers a positive gain. -/
def cSelfW3 : Vehicle := { testVehicle 0 100 30 0 30 with acceleration := -1 }

/-- C5 scenario follower. -/
def cVehA : Vehicle := testVehicle 0 100 30 0 30

/-- C5 scenario leader overlapping the follower: raw gap
104 - 100 - 5 = -1 ≤ 0. -/
def cVehB : Vehicle := testVehicle 1 104 30 0 30

/-- C6 scenario: first due entry. -/
def cE1 : Sched where
  deployment_time := 0
  initial_position := some 0
  lane := 0
  desired_velocity := 30
  driver_type := DriverType.normal
  is_distracted := false

/-- C6 scenario: second due entry, equally due at time 0. -/
def cE2 : Sched where
  deployment_time := 0
  initial_position := some 0
  lane := 1
  desired_velocity := 32
  driver_type := DriverType.normal
  is_distracted := false

/-- C6 scenario world: empty road, two entries both due at time 0. -/
def cWorld6 : World :=
  { testWorld 2 [] with scheduled_vehicles := [cE1, cE2] }

/-- C6: the world after deploy_scheduled_vehicle on cWorld6 — the first
entry deployed at its requested spawn, the second (equally due) entry
still pending. -/
def cWorld6out : World :=
  { cWorld6 with
      scheduled_vehicles := [cE2]
      vehicles := [mkDeployedVehicle 0 0 0 cE1] }

/-- C7 witness zone: active on [0, 10), centered at 100 with range 50,
slowness 1/2. -/
def cZone7 : PositionalDistraction where
  position := 100
  range := 50
  slowness := 1/2
  spawn_time := 0
  duration := 10

/-- C7 witness vehicle inside the zone. -/
def cVeh7 : Vehicle := testVehicle 0 80 25 0 30

/-- C8 witness vehicle: currently distracted (episode not yet over). -/
def cVeh8 : Vehicle :=
  { testVehicle 0 10 20 0 30 with
      can_be_distracted := true
      is_distracted := true
      distraction_duration := 10 }

/-- C9 witness vehicle. -/
def cVeh9 : Vehicle := testVehicle 0 0 21 0 30

/-- C10 scenario: one vehicle below its desired velocity, so the
per-tick mean velocity strictly increases across the run. -/
def cWorld10 : World := testWorld 1 [testVehicle 0 0 21 0 30]

/-- The C10 vehicle after one tick. -/
def cV10a : Vehicle :=
  { testVehicle 0 (862797/80000) (862797/40000) 0 30 with
      acceleration := 22797/20000 }

/-- The C10 world after one tick. -/
def cW10a : World :=
  { cWorld10 with
      vehicles := [cV10a]
      average_speeds := [862797/40000]
      lane_distributions := [[0]]
      time := 1/2 }

/-- The C10 vehicle after two ticks. -/
def cV10b : Vehicle :=
  { testVehicle 0 (4473796227180226867771197/204800000000000000000000)
      (2265035907180226867771197/102400000000000000000000) 0 30 with
      acceleration := 56275587180226867771197/51200000000000000000000 }

/-- The C10 world after two ticks. -/
def cW10b : World :=
  { cWorld10 with
      vehicles := [cV10b]
      average_speeds :=
        [862797/40000, 2265035907180226867771197/102400000000000000000000]
      lane_distributions := [[0], [0]]
      time := 1 }

/-! Helper lemmas. -/

theorem check_distraction_velocity (o : Oracle) (self : Vehicle) (t : ℚ) :
    (Vehicle.check_distraction o self t).velocity = self.velocity := by
  unfold Vehicle.check_distraction
  split_ifs <;> rfl

theorem check_distraction_position (o : Oracle) (self : Vehicle) (t : ℚ) :
    (Vehicle.check_distraction o self t).position = self.position := by
  unfold Vehicle.check_distraction
  split_ifs <;> rfl

theorem check_distraction_lane (o : Oracle) (self : Vehicle) (t : ℚ) :
    (Vehicle.check_distraction o self t).lane = self.lane := by
  unfold Vehicle.check_distraction
  split_ifs <;> rfl

theorem check_distraction_desired (o : Oracle) (self : Vehicle) (t : ℚ) :
    (Vehicle.check_distraction o self t).desired_velocity = self.desired_velocity := by
  unfold Vehicle.check_distraction
  split_ifs <;> rfl

theorem check_distraction_driver_type (o : Oracle) (self : Vehicle) (t : ℚ) :
    (Vehicle.check_distraction o self t).driver_type = self.driver_type := by
  unfold Vehicle.check_distraction
  split_ifs <;> rfl

theorem normal_ne_obstacle : (DriverType.normal = DriverType.obstacle) = False := by
  simp

theorem comfortable_deceleration_nonneg (d : DriverType) :
    0 ≤ d.comfortable_deceleration := by
  cases d <;> norm_num [DriverType.comfortable_deceleration]

/-- Unfolding of Vehicle.update for non-obstacle vehicles. -/
theorem update_nonobstacle (sq : ℚ → ℚ) (o : Oracle) (self : Vehicle)
    (dt : ℚ) (vehicles : List Vehicle) (lanes_count : Nat) (road_length : ℚ)
    (current_time : ℚ) (change_lanes : Bool)
    (h : self.driver_type ≠ DriverType.obstacle) :
    Vehicle.update sq o self dt vehicles lanes_count road_length current_time
        change_lanes =
      (let s1 := Vehicle.check_distraction o self current_time
       let lead := (s1.find_neighbors vehicles s1.lane road_length).1
       let s2 := { s1 with
         acceleration := Vehicle.idm_acceleration sq s1 lead road_length }
       let s3 := { s2 with
         velocity := Vehicle.updatedVelocity s2 lead dt road_length }
       let p := s3.position + s3.velocity * dt
       let s4 := { s3 with
         position := if p > road_length then p - road_length else p }
       if change_lanes = true ∧ s4.is_distracted = false ∧ o.lane_roll < 1/10 then
         { s4 with
           lane := Vehicle.mobil_decide_lane_change sq s4 vehicles lanes_count road_length }
       else s4) := by
  unfold Vehicle.update
  simp only [h, if_neg, if_false, false_and, ite_false]

/-! Claim C4. -/

/-- C4: the MOBIL safety predicate fails exactly when the target-lane
leader exists with (adjusted) gap below the ego's min_gap, or the
target-lane follower exists and its IDM acceleration with a
hypothetical copy of the ego as leader is below minus the ego's
safe_deceleration; with neither neighbor the change is always safe. -/
theorem C4_safety_characterization (sq : ℚ → ℚ) (self : Vehicle)
    (lead_target follow_target : Option Vehicle) (road_length : ℚ) :
    (Vehicle.is_lane_change_safe sq self lead_target follow_target road_length
        = false ↔
      ((∃ g, lead_target = some g ∧
          self.safetyGap g road_length < self.driver_type.min_gap) ∨
       (∃ f, follow_target = some f ∧
          Vehicle.idm_acceleration sq f (some (self.selfClone f.lane)) 1000 <
            -self.driver_type.safe_deceleration))) ∧
    Vehicle.is_lane_change_safe sq self none none road_length = true := by
  constructor
  · unfold Vehicle.is_lane_change_safe
    cases lead_target with
    | none =>
      cases follow_target with
      | none => simp
      | some f => simp
    | some g =>
      cases follow_target with
      | none =>
        simp only [decide_eq_true_eq]
        by_cases hg : self.safetyGap g road_length < self.driver_type.min_gap
        · simp [hg]
        · simp [hg]
      | some f =>
        simp only [decide_eq_true_eq]
        by_cases hg : self.safetyGap g road_length < self.driver_type.min_gap
        · simp [hg]
        · simp [hg]
  · rfl

/-! Claim C5. -/

/-- C5 counterexample: a leader 4 m ahead of a 5 m-long... rather, raw
gap -1 ≤ 0, yet the divisor used in the interaction term is
999 (the circular wrap), not the claimed 0.1 clamp. -/
theorem C5_counterexample :
    Vehicle.idmRawGap cVehA cVehB = -1 ∧
    Vehicle.idmEffectiveGap cVehA cVehB 1000 = 999 ∧
    ¬ Vehicle.idmEffectiveGap cVehA cVehB 1000 = 1/10 := by
  refine ⟨?_, ?_, ?_⟩ <;>
    norm_num [Vehicle.idmEffectiveGap, Vehicle.idmAdjustedGap, Vehicle.idmRawGap,
      cVehA, cVehB, testVehicle]

/-- C5 amended: the raw gap `x_g - x_f - ℓ_g`, when negative, is first
wrapped by adding road_length (circular treatment); the divisor of the
interaction term is `max(wrapped gap, 0.1) ≥ 0.1`, and for a
non-obstacle follower the returned acceleration is exactly
`a_free - A * (s*/divisor)²`, hence always well defined (finite). -/
theorem C5_gap_clamp (sq : ℚ → ℚ) (self g : Vehicle) (road_length : ℚ) :
    1/10 ≤ self.idmEffectiveGap g road_length ∧
    (self.driver_type ≠ DriverType.obstacle →
      Vehicle.idm_acceleration sq self (some g) road_length =
        self.aFree - self.driver_type.max_acceleration *
          (Vehicle.sStar sq self g / self.idmEffectiveGap g road_length) ^ 2) := by
  constructor
  · exact le_max_right _ _
  · intro h
    unfold Vehicle.idm_acceleration
    rw [if_neg h]
    ring

/-- C5 amended witness at a concrete input. -/
theorem C5_gap_clamp_witness :
    1/10 ≤ cVehA.idmEffectiveGap cVehB 1000 ∧
    (Vehicle.idm_acceleration cSq cVehA (some cVehB) 1000 =
      cVehA.aFree - cVehA.driver_type.max_acceleration *
        (Vehicle.sStar cSq cVehA cVehB / cVehA.idmEffectiveGap cVehB 1000) ^ 2) :=
  ⟨(C5_gap_clamp cSq cVehA cVehB 1000).1,
   (C5_gap_clamp cSq cVehA cVehB 1000).2 (by simp [cVehA, testVehicle])⟩

/-! Claim C9. -/

theorem updatedVelocity_bounds (s : Vehicle) (lead : Option Vehicle)
    (dt road_length : ℚ) (hv0 : 0 ≤ s.velocity)
    (hv2 : s.velocity ≤ 2 * s.desired_velocity) (hdt : 0 < dt) :
    0 ≤ Vehicle.updatedVelocity s lead dt road_length ∧
    Vehicle.updatedVelocity s lead dt road_length ≤ 2 * s.desired_velocity := by
  unfold Vehicle.updatedVelocity
  split_ifs with h
  · refine ⟨le_max_left 0 _, max_le (by linarith) (min_le_right _ _)⟩
  · cases lead with
    | none => exact ⟨hv0, hv2⟩
    | some g =>
      dsimp only
      have hB : 0 ≤ s.driver_type.comfortable_deceleration * (3/2) := by
        have := comfortable_deceleration_nonneg s.driver_type
        linarith
      have hvd : 0 ≤ s.velocity / dt := div_nonneg hv0 hdt.le
      have hmin0 : 0 ≤
          min (s.driver_type.comfortable_deceleration * (3/2)) (s.velocity / dt) :=
        le_min hB hvd
      have h1 :
          min (s.driver_type.comfortable_deceleration * (3/2)) (s.velocity / dt) * dt ≤
            s.velocity / dt * dt :=
        mul_le_mul_of_nonneg_right (min_le_right _ _) hdt.le
      have h2 : s.velocity / dt * dt = s.velocity := div_mul_cancel₀ _ (ne_of_gt hdt)
      have h3 : 0 ≤
          min (s.driver_type.comfortable_deceleration * (3/2)) (s.velocity / dt) * dt :=
        mul_nonneg hmin0 hdt.le
      have hemer :
          0 ≤ s.velocity -
            min (s.driver_type.comfortable_deceleration * (3/2)) (s.velocity / dt) * dt ∧
          s.velocity -
            min (s.driver_type.comfortable_deceleration * (3/2)) (s.velocity / dt) * dt ≤
            2 * s.desired_velocity :=
        ⟨by linarith, by linarith⟩
      split_ifs <;> first
        | exact ⟨hv0, hv2⟩
        | exact hemer

/-- C9: for a non-obstacle vehicle starting a tick with
0 ≤ v ≤ 2·v₀, the velocity after Vehicle.update again satisfies
0 ≤ v ≤ 2·v₀ — the normal path clamps v + a·dt into [0, 2·v₀] and the
distracted emergency-braking path subtracts
min(1.5·B, v/dt)·dt ∈ [0, v]. -/
theorem C9_velocity_bounds (sq : ℚ → ℚ) (o : Oracle) (self : Vehicle)
    (dt : ℚ) (vehicles : List Vehicle) (lanes_count : Nat)
    (road_length current_time : ℚ) (change_lanes : Bool)
    (hobs : self.driver_type ≠ DriverType.obstacle)
    (hv0 : 0 ≤ self.velocity) (hv2 : self.velocity ≤ 2 * self.desired_velocity)
    (hdt : 0 < dt) :
    0 ≤ (Vehicle.update sq o self dt vehicles lanes_count road_length
          current_time change_lanes).velocity ∧
    (Vehicle.update sq o self dt vehicles lanes_count road_length
          current_time change_lanes).velocity ≤ 2 * self.desired_velocity := by
  rw [update_nonobstacle sq o self dt vehicles lanes_count road_length
    current_time change_lanes hobs]
  dsimp only
  split_ifs with hlc
  all_goals
    dsimp only
    refine (?_ : 0 ≤ Vehicle.updatedVelocity _ _ dt road_length ∧ _)
  all_goals
    have hb := updatedVelocity_bounds
      { Vehicle.check_distraction o self current_time with
        acceleration := Vehicle.idm_acceleration sq
          (Vehicle.check_distraction o self current_time)
          ((Vehicle.check_distraction o self current_time).find_neighbors vehicles
            (Vehicle.check_distraction o self current_time).lane road_length).1
          road_length }
      ((Vehicle.check_distraction o self current_time).find_neighbors vehicles
        (Vehicle.check_distraction o self current_time).lane road_length).1
      dt road_length
      (by simpa [check_distraction_velocity] using hv0)
      (by simpa [check_distraction_velocity, check_distraction_desired] using hv2)
      hdt
    simpa [check_distraction_desired] using hb

/-- C9 witness: concrete non-obstacle vehicle with 0 ≤ v ≤ 2·v₀ and
dt = 1/2. -/
theorem C9_velocity_bounds_witness :
    cVeh9.driver_type ≠ DriverType.obstacle ∧ 0 ≤ cVeh9.velocity ∧
    cVeh9.velocity ≤ 2 * cVeh9.desired_velocity ∧ (0:ℚ) < 1/2 ∧
    (0 ≤ (Vehicle.update cSq cOracle cVeh9 (1/2) [cVeh9] 1 1000 0 true).velocity ∧
     (Vehicle.update cSq cOracle cVeh9 (1/2) [cVeh9] 1 1000 0 true).velocity ≤
       2 * cVeh9.desired_velocity) :=
  ⟨by simp [cVeh9, testVehicle], by norm_num [cVeh9, testVehicle],
   by norm_num [cVeh9, testVehicle], by norm_num,
   C9_velocity_bounds cSq cOracle cVeh9 (1/2) [cVeh9] 1 1000 0 true
     (by simp [cVeh9, testVehicle]) (by norm_num [cVeh9, testVehicle])
     (by norm_num [cVeh9, testVehicle]) (by norm_num)⟩

/-! Claim C8. -/

/-- C8: on a tick in which a (non-obstacle) vehicle is distracted after
the distraction refresh, its lane is unchanged and its velocity is
unchanged unless the emergency-braking override fired: the same-lane
leader gap fell below s₀ + v·1.0, in which case
min(1.5·B, v/dt)·dt is subtracted for that tick. -/
theorem C8_distracted_tick (sq : ℚ → ℚ) (o : Oracle) (self : Vehicle)
    (dt : ℚ) (vehicles : List Vehicle) (lanes_count : Nat)
    (road_length current_time : ℚ) (change_lanes : Bool)
    (hobs : self.driver_type ≠ DriverType.obstacle)
    (hdis : (Vehicle.check_distraction o self current_time).is_distracted = true) :
    (Vehicle.update sq o self dt vehicles lanes_count road_length current_time
        change_lanes).lane = self.lane ∧
    (Vehicle.update sq o self dt vehicles lanes_count road_length current_time
        change_lanes).velocity =
      (match ((Vehicle.check_distraction o self current_time).find_neighbors
          vehicles self.lane road_length).1 with
       | none => self.velocity
       | some g =>
         let gap0 := g.position - self.position - g.length
         let gap := if gap0 < 0 then gap0 + road_length else gap0
         if gap < self.driver_type.min_gap + self.velocity * 1 then
           self.velocity - min (self.driver_type.comfortable_deceleration * (3/2))
             (self.velocity / dt) * dt
         else self.velocity) := by
  rw [update_nonobstacle sq o self dt vehicles lanes_count road_length
    current_time change_lanes hobs]
  dsimp only
  rw [if_neg (by simp [hdis])]
  constructor
  · exact check_distraction_lane o self current_time
  · show Vehicle.updatedVelocity _ _ dt road_length = _
    unfold Vehicle.updatedVelocity
    rw [if_neg (by simp [hdis])]
    rw [check_distraction_lane]
    cases hL : ((Vehicle.check_distraction o self current_time).find_neighbors
        vehicles self.lane road_length).1 with
    | none => exact check_distraction_velocity o self current_time
    | some g =>
      dsimp only
      simp only [check_distraction_position, check_distraction_velocity,
        check_distraction_driver_type]

/-- C8 witness: a concrete distracted vehicle with no same-lane leader
keeps its lane and its velocity. -/
theorem C8_distracted_tick_witness :
    cVeh8.driver_type ≠ DriverType.obstacle ∧
    (Vehicle.check_distraction cOracle cVeh8 1).is_distracted = true ∧
    ((Vehicle.update cSq cOracle cVeh8 (1/2) [cVeh8] 1 1000 1 true).lane =
        cVeh8.lane ∧
     (Vehicle.update cSq cOracle cVeh8 (1/2) [cVeh8] 1 1000 1 true).velocity =
      (match ((Vehicle.check_distraction cOracle cVeh8 1).find_neighbors
          [cVeh8] cVeh8.lane 1000).1 with
       | none => cVeh8.velocity
       | some g =>
         let gap0 := g.position - cVeh8.position - g.length
         let gap := if gap0 < 0 then gap0 + 1000 else gap0
         if gap < cVeh8.driver_type.min_gap + cVeh8.velocity * 1 then
           cVeh8.velocity - min (cVeh8.driver_type.comfortable_deceleration * (3/2))
             (cVeh8.velocity / (1/2)) * (1/2)
         else cVeh8.velocity)) :=
  ⟨by simp [cVeh8, testVehicle],
   by norm_num [Vehicle.check_distraction, cVeh8, testVehicle],
   C8_distracted_tick cSq cOracle cVeh8 (1/2) [cVeh8] 1 1000 1 true
     (by simp [cVeh8, testVehicle])
     (by norm_num [Vehicle.check_distraction, cVeh8, testVehicle])⟩

/-! Claim C1. -/

theorem updateVehiclesGo_length (sq : ℚ → ℚ) (os : Nat → Oracle) (dt : ℚ)
    (lanes_count : Nat) (road_length current_time : ℚ) :
    ∀ (pending done : List Vehicle) (i : Nat),
      (updateVehiclesGo sq os dt lanes_count road_length current_time
        i done pending).length = done.length + pending.length := by
  intro pending
  induction pending with
  | nil => intro done i; simp [updateVehiclesGo]
  | cons v rest ih =>
    intro done i
    show (updateVehiclesGo sq os dt lanes_count road_length current_time
      (i + 1) (done ++ [_]) rest).length = _
    rw [ih]
    simp
    omega

theorem updateAllVehicles_length (sq : ℚ → ℚ) (os : Nat → Oracle) (dt : ℚ)
    (lanes_count : Nat) (road_length current_time : ℚ) (vehicles : List Vehicle) :
    (updateAllVehicles sq os dt lanes_count road_length current_time
      vehicles).length = vehicles.length := by
  rw [updateAllVehicles, updateVehiclesGo_length]
  simp

/-- The post-update position of a non-obstacle vehicle: the pre-step
position plus the new velocity times dt, wrapped by subtracting
road_length once when it exceeds road_length. -/
theorem update_position_wrap (sq : ℚ → ℚ) (o : Oracle) (self : Vehicle)
    (dt : ℚ) (vehicles : List Vehicle) (lanes_count : Nat)
    (road_length current_time : ℚ) (change_lanes : Bool)
    (hobs : self.driver_type ≠ DriverType.obstacle) :
    (Vehicle.update sq o self dt vehicles lanes_count road_length current_time
        change_lanes).position =
      (if self.position + (Vehicle.update sq o self dt vehicles lanes_count
            road_length current_time change_lanes).velocity * dt > road_length
       then self.position + (Vehicle.update sq o self dt vehicles lanes_count
            road_length current_time change_lanes).velocity * dt - road_length
       else self.position + (Vehicle.update sq o self dt vehicles lanes_count
            road_length current_time change_lanes).velocity * dt) := by
  have hvel : (Vehicle.update sq o self dt vehicles lanes_count road_length
      current_time change_lanes).velocity =
      Vehicle.updatedVelocity
        { Vehicle.check_distraction o self current_time with
          acceleration := Vehicle.idm_acceleration sq
            (Vehicle.check_distraction o self current_time)
            ((Vehicle.check_distraction o self current_time).find_neighbors
              vehicles (Vehicle.check_distraction o self current_time).lane
              road_length).1 road_length }
        ((Vehicle.check_distraction o self current_time).find_neighbors vehicles
          (Vehicle.check_distraction o self current_time).lane road_length).1
        dt road_length := by
    rw [update_nonobstacle sq o self dt vehicles lanes_count road_length
      current_time change_lanes hobs]
    dsimp only
    split_ifs <;> rfl
  rw [hvel]
  conv_lhs => rw [update_nonobstacle sq o self dt vehicles lanes_count
    road_length current_time change_lanes hobs]
  dsimp only
  by_cases hLC : change_lanes = true ∧
      (Vehicle.check_distraction o self current_time).is_distracted = false ∧
      o.lane_roll < 1/10
  · rw [if_pos hLC]
    dsimp only
    rw [check_distraction_position]
  · rw [if_neg hLC]
    dsimp only
    rw [check_distraction_position]

/-- C1 amended: no vehicle is ever removed at the end of a tick — the
update pass preserves the vehicle count (for an unpaused world with an
empty deployment schedule the whole tick does) — and a non-obstacle
vehicle whose position would cross road_length is wrapped back by
subtracting road_length once (circular road). -/
theorem C1_no_retirement_wrap :
    (∀ (sq : ℚ → ℚ) (os : Nat → Oracle) (w : World),
      w.is_paused = false → w.scheduled_vehicles = [] →
      ∃ w2, TrafficSimulation.run_step sq os w = some w2 ∧
        w2.vehicles.length = w.vehicles.length) ∧
    (∀ (sq : ℚ → ℚ) (o : Oracle) (v : Vehicle) (dt : ℚ)
        (vehicles : List Vehicle) (lanes_count : Nat)
        (road_length current_time : ℚ) (change_lanes : Bool),
      v.driver_type ≠ DriverType.obstacle →
      (Vehicle.update sq o v dt vehicles lanes_count road_length current_time
          change_lanes).position =
        (if v.position + (Vehicle.update sq o v dt vehicles lanes_count
              road_length current_time change_lanes).velocity * dt > road_length
         then v.position + (Vehicle.update sq o v dt vehicles lanes_count
              road_length current_time change_lanes).velocity * dt - road_length
         else v.position + (Vehicle.update sq o v dt vehicles lanes_count
              road_length current_time change_lanes).velocity * dt)) := by
  constructor
  · intro sq os w hp hs
    simp only [TrafficSimulation.run_step, TrafficSimulation.deploy_scheduled_vehicle,
      hp, hs, deployGo, Bool.false_eq_true, if_false]
    exact ⟨_, rfl, by simp [updateAllVehicles_length]⟩
  · intro sq o v dt vehicles lanes_count road_length current_time change_lanes hobs
    exact update_position_wrap sq o v dt vehicles lanes_count road_length
      current_time change_lanes hobs

/-- C1 counterexample: a vehicle at 999 m moving at 30 m/s with dt =
0.5 crosses the 1000 m road end during the tick, yet after run_step it
is still present (vehicle count 1) at the wrapped position 14 m — it is
wrapped around to the start, not removed. -/
theorem C1_counterexample :
    (TrafficSimulation.run_step cSq cOs cWorld1).map
        (fun w => (w.vehicles.length, w.vehicles.map Vehicle.position)) =
      some (1, [14]) := by
  norm_num [TrafficSimulation.run_step, TrafficSimulation.deploy_scheduled_vehicle,
    deployGo, cWorld1, testWorld, updateAllVehicles, updateVehiclesGo,
    Vehicle.update, Vehicle.check_distraction, Vehicle.find_neighbors,
    Vehicle.neighborStep, Vehicle.idm_acceleration, Vehicle.aFree,
    Vehicle.updatedVelocity, testVehicle, cOs, cOracle, cSq, dictLookup,
    normal_ne_obstacle]

/-- C1 amended witness at the concrete crossing scenario. -/
theorem C1_no_retirement_wrap_witness :
    (cWorld1.is_paused = false ∧ cWorld1.scheduled_vehicles = [] ∧
      ∃ w2, TrafficSimulation.run_step cSq cOs cWorld1 = some w2 ∧
        w2.vehicles.length = cWorld1.vehicles.length) ∧
    ((testVehicle 0 999 30 0 30).driver_type ≠ DriverType.obstacle ∧
      (Vehicle.update cSq cOracle (testVehicle 0 999 30 0 30) (1/2)
          [testVehicle 0 999 30 0 30] 1 1000 0 true).position =
        (if (testVehicle 0 999 30 0 30).position +
              (Vehicle.update cSq cOracle (testVehicle 0 999 30 0 30) (1/2)
                [testVehicle 0 999 30 0 30] 1 1000 0 true).velocity * (1/2) > 1000
         then (testVehicle 0 999 30 0 30).position +
              (Vehicle.update cSq cOracle (testVehicle 0 999 30 0 30) (1/2)
                [testVehicle 0 999 30 0 30] 1 1000 0 true).velocity * (1/2) - 1000
         else (testVehicle 0 999 30 0 30).position +
              (Vehicle.update cSq cOracle (testVehicle 0 999 30 0 30) (1/2)
                [testVehicle 0 999 30 0 30] 1 1000 0 true).velocity * (1/2))) :=
  ⟨⟨rfl, rfl, C1_no_retirement_wrap.1 cSq cOs cWorld1 rfl rfl⟩,
   ⟨by simp [testVehicle],
    C1_no_retirement_wrap.2 cSq cOracle (testVehicle 0 999 30 0 30) (1/2)
      [testVehicle 0 999 30 0 30] 1 1000 0 true (by simp [testVehicle])⟩⟩

/-! Claim C2. -/

set_option maxHeartbeats 1000000 in
/-- C2 counterexample: with a leader at 100 m and its follower at 50 m
in the same lane, the source's in-place pass and the specification's
two-phase pass disagree — the follower's IDM acceleration is computed
against the leader's already-integrated position. -/
theorem C2_counterexample :
    updateAllVehicles cSq cOs (1/2) 1 1000 0 [cLead2, cFoll2] ≠
      specTwoPhaseUpdateAll cSq cOs (1/2) 1 1000 0 [cLead2, cFoll2] := by
  have h1 : Vehicle.update cSq cOracle cLead2 (1/2) [cLead2, cFoll2] 1 1000 0
      true = cLead2out := by
    norm_num [Vehicle.update, Vehicle.check_distraction, Vehicle.find_neighbors,
      Vehicle.neighborStep, Vehicle.neighborDistance, Vehicle.idm_acceleration,
      Vehicle.aFree, Vehicle.sStar, Vehicle.idmEffectiveGap,
      Vehicle.idmAdjustedGap, Vehicle.idmRawGap, Vehicle.updatedVelocity,
      cLead2, cFoll2, cLead2out, testVehicle, cOracle, cSq, ltMinSoFar,
      DriverType.time_headway, DriverType.min_gap, DriverType.max_acceleration,
      DriverType.comfortable_deceleration, DriverType.delta,
      normal_ne_obstacle]
  have h2 : Vehicle.update cSq cOracle cFoll2 (1/2) [cLead2out, cFoll2] 1 1000 0
      true = cFoll2seq := by
    norm_num [Vehicle.update, Vehicle.check_distraction, Vehicle.find_neighbors,
      Vehicle.neighborStep, Vehicle.neighborDistance, Vehicle.idm_acceleration,
      Vehicle.aFree, Vehicle.sStar, Vehicle.idmEffectiveGap,
      Vehicle.idmAdjustedGap, Vehicle.idmRawGap, Vehicle.updatedVelocity,
      cLead2out, cFoll2, cFoll2seq, testVehicle, cOracle, cSq, ltMinSoFar,
      DriverType.time_headway, DriverType.min_gap, DriverType.max_acceleration,
      DriverType.comfortable_deceleration, DriverType.delta,
      normal_ne_obstacle]
  have h3 : Vehicle.update cSq cOracle cFoll2 (1/2) [cLead2, cFoll2] 1 1000 0
      true = cFoll2spec := by
    norm_num [Vehicle.update, Vehicle.check_distraction, Vehicle.find_neighbors,
      Vehicle.neighborStep, Vehicle.neighborDistance, Vehicle.idm_acceleration,
      Vehicle.aFree, Vehicle.sStar, Vehicle.idmEffectiveGap,
      Vehicle.idmAdjustedGap, Vehicle.idmRawGap, Vehicle.updatedVelocity,
      cLead2, cFoll2, cFoll2spec, testVehicle, cOracle, cSq, ltMinSoFar,
      DriverType.time_headway, DriverType.min_gap, DriverType.max_acceleration,
      DriverType.comfortable_deceleration, DriverType.delta,
      normal_ne_obstacle]
  have hseq : updateAllVehicles cSq cOs (1/2) 1 1000 0 [cLead2, cFoll2] =
      [cLead2out, cFoll2seq] := by
    show updateVehiclesGo cSq cOs (1/2) 1 1000 0 0 [] [cLead2, cFoll2] =
      [cLead2out, cFoll2seq]
    rw [show updateVehiclesGo cSq cOs (1/2) 1 1000 0 0 [] [cLead2, cFoll2] =
        updateVehiclesGo cSq cOs (1/2) 1 1000 0 1
          [Vehicle.update cSq (cOs 0) cLead2 (1/2) ([] ++ cLead2 :: [cFoll2])
            1 1000 0 true] [cFoll2] from rfl]
    rw [show cOs 0 = cOracle from rfl, show ([] ++ cLead2 :: [cFoll2]) =
      [cLead2, cFoll2] from rfl, h1]
    rw [show updateVehiclesGo cSq cOs (1/2) 1 1000 0 1 [cLead2out] [cFoll2] =
        updateVehiclesGo cSq cOs (1/2) 1 1000 0 2
          ([cLead2out] ++ [Vehicle.update cSq (cOs 1) cFoll2 (1/2)
            ([cLead2out] ++ cFoll2 :: []) 1 1000 0 true]) [] from rfl]
    rw [show cOs 1 = cOracle from rfl, show ([cLead2out] ++ cFoll2 :: []) =
      [cLead2out, cFoll2] from rfl, h2]
    rfl
  have hspec : specTwoPhaseUpdateAll cSq cOs (1/2) 1 1000 0 [cLead2, cFoll2] =
      [cLead2out, cFoll2spec] := by
    show [Vehicle.update cSq (cOs 0) cLead2 (1/2) [cLead2, cFoll2] 1 1000 0 true,
      Vehicle.update cSq (cOs 1) cFoll2 (1/2) [cLead2, cFoll2] 1 1000 0 true] = _
    rw [show cOs 0 = cOracle from rfl, show cOs 1 = cOracle from rfl, h1, h3]
  rw [hseq, hspec]
  norm_num [cFoll2seq, cFoll2spec, cLead2out, testVehicle]

theorem updateVehiclesGo_prefix (sq : ℚ → ℚ) (os : Nat → Oracle) (dt : ℚ)
    (lanes_count : Nat) (road_length current_time : ℚ) :
    ∀ (pending done : List Vehicle) (i : Nat),
      (updateVehiclesGo sq os dt lanes_count road_length current_time
        i done pending).take done.length = done := by
  intro pending
  induction pending with
  | nil => intro done i; simp [updateVehiclesGo]
  | cons v rest ih =>
    intro done i
    show (updateVehiclesGo sq os dt lanes_count road_length current_time
      (i + 1) (done ++ [_]) rest).take done.length = done
    have h := ih (done ++ [Vehicle.update sq (os i) v dt (done ++ v :: rest)
      lanes_count road_length current_time true]) (i + 1)
    have hmin : done.length =
        min done.length (done ++ [Vehicle.update sq (os i) v dt (done ++ v :: rest)
          lanes_count road_length current_time true]).length := by
      simp
    rw [hmin, ← List.take_take, h]
    exact List.take_left done _

theorem updateVehiclesGo_get? (sq : ℚ → ℚ) (os : Nat → Oracle) (dt : ℚ)
    (lanes_count : Nat) (road_length current_time : ℚ) :
    ∀ (pending done : List Vehicle) (i0 j : Nat) (hj : j < pending.length),
      (updateVehiclesGo sq os dt lanes_count road_length current_time
          i0 done pending).get? (done.length + j) =
        some (Vehicle.update sq (os (i0 + j)) (pending.get ⟨j, hj⟩) dt
          ((updateVehiclesGo sq os dt lanes_count road_length current_time
              i0 done pending).take (done.length + j) ++ pending.drop j)
          lanes_count road_length current_time true) := by
  intro pending
  induction pending with
  | nil => intro done i0 j hj; exact absurd hj (by simp)
  | cons v rest ih =>
    intro done i0 j hj
    cases j with
    | zero =>
      have hpre := updateVehiclesGo_prefix sq os dt lanes_count road_length
        current_time (v :: rest) done i0
      simp only [Nat.add_zero, List.drop_zero, List.get]
      rw [hpre]
      have hpre2 := updateVehiclesGo_prefix sq os dt lanes_count road_length
        current_time rest (done ++ [Vehicle.update sq (os i0) v dt
          (done ++ v :: rest) lanes_count road_length current_time true]) (i0 + 1)
      have hlen : (done ++ [Vehicle.update sq (os i0) v dt (done ++ v :: rest)
          lanes_count road_length current_time true]).length = done.length + 1 := by
        simp
      show (updateVehiclesGo sq os dt lanes_count road_length current_time
          (i0 + 1) (done ++ [Vehicle.update sq (os i0) v dt (done ++ v :: rest)
            lanes_count road_length current_time true]) rest).get? done.length =
        some (Vehicle.update sq (os i0) v dt (done ++ v :: rest)
          lanes_count road_length current_time true)
      rw [← List.get?_take (by omega : done.length < done.length + 1)]
      rw [← hlen, hpre2]
      exact List.get?_concat_length done _
    | succ j2 =>
      have hj2 : j2 < rest.length := by simpa using hj
      have key := ih (done ++ [Vehicle.update sq (os i0) v dt (done ++ v :: rest)
        lanes_count road_length current_time true]) (i0 + 1) j2 hj2
      have hlen : (done ++ [Vehicle.update sq (os i0) v dt (done ++ v :: rest)
          lanes_count road_length current_time true]).length = done.length + 1 := by
        simp
      rw [hlen] at key
      have hidx : done.length + 1 + j2 = done.length + (j2 + 1) := by omega
      rw [hidx] at key
      have hos : i0 + 1 + j2 = i0 + (j2 + 1) := by omega
      rw [hos] at key
      exact key

/-- C2 amended: the tick's vehicle pass is sequential in list order,
not two-phase: the i-th vehicle's update reads the list in which
vehicles 0..i-1 have already been integrated (and lane-changed) this
tick while vehicles i.. are still pre-step. -/
theorem C2_sequential_update (sq : ℚ → ℚ) (os : Nat → Oracle) (dt : ℚ)
    (lanes_count : Nat) (road_length current_time : ℚ) (vs : List Vehicle)
    (i : Nat) (h : i < vs.length) :
    (updateAllVehicles sq os dt lanes_count road_length current_time vs).get? i =
      some (Vehicle.update sq (os i) (vs.get ⟨i, h⟩) dt
        ((updateAllVehicles sq os dt lanes_count road_length current_time
            vs).take i ++ vs.drop i) lanes_count road_length current_time true) := by
  have key := updateVehiclesGo_get? sq os dt lanes_count road_length current_time
    vs [] 0 i h
  simpa [updateAllVehicles] using key

/-- C2 amended witness: in the concrete two-vehicle scenario the second
vehicle's update reads the first vehicle's already-updated state. -/
theorem C2_sequential_update_witness :
    (1 < ([cLead2, cFoll2] : List Vehicle).length) ∧
    (updateAllVehicles cSq cOs (1/2) 1 1000 0 [cLead2, cFoll2]).get? 1 =
      some (Vehicle.update cSq (cOs 1)
        (([cLead2, cFoll2] : List Vehicle).get ⟨1, by norm_num⟩) (1/2)
        ((updateAllVehicles cSq cOs (1/2) 1 1000 0 [cLead2, cFoll2]).take 1 ++
          ([cLead2, cFoll2] : List Vehicle).drop 1) 1 1000 0 true) :=
  ⟨by norm_num,
   C2_sequential_update cSq cOs (1/2) 1 1000 0 [cLead2, cFoll2] 1 (by norm_num)⟩

/-! Claim C3. -/

/-- C3 counterexample: with only a target-lane follower present, the
source's utility and the claim's formula (whose follower terms are
oriented after-minus-before) have opposite signs. -/
theorem C3_counterexample :
    Vehicle.calculate_lane_change_advantage cSq cSelf3 0 none none none
        (some cF3) 1 ≠
      specClaimedUtility cSq cSelf3 0 none none none (some cF3) 1 := by
  norm_num [Vehicle.calculate_lane_change_advantage, specClaimedUtility,
    Vehicle.idm_acceleration, Vehicle.aFree, Vehicle.sStar,
    Vehicle.idmEffectiveGap, Vehicle.idmAdjustedGap, Vehicle.idmRawGap,
    Vehicle.selfClone, cSelf3, cF3, testVehicle, cSq, normal_ne_obstacle,
    DriverType.time_headway, DriverType.min_gap, DriverType.max_acceleration,
    DriverType.comfortable_deceleration, DriverType.delta, DriverType.politeness]

theorem mobilFold_spec (sq : ℚ → ℚ) (self : Vehicle) (vehicles : List Vehicle)
    (road_length current_acc : ℚ) (lc fc : Option Vehicle) :
    ∀ (cands : List Nat) (acc r : Nat × ℚ),
      cands.foldl (Vehicle.mobilConsider sq self vehicles road_length
        current_acc lc fc) acc = r →
      r = acc ∨
      (r.1 ∈ cands ∧
       self.is_lane_change_safe sq
         (self.find_neighbors vehicles r.1 road_length).1
         (self.find_neighbors vehicles r.1 road_length).2 road_length = true ∧
       r.2 = self.mobilBiasedAdvantage sq vehicles road_length current_acc
         lc fc r.1 ∧
       r.2 > acc.2 ∧
       gtThreshold r.2 self.driver_type.changing_threshold) := by
  intro cands
  induction cands with
  | nil =>
    intro acc r hr
    left
    simpa using hr.symm
  | cons c cs ih =>
    intro acc r hr
    rw [List.foldl_cons] at hr
    have hstep : Vehicle.mobilConsider sq self vehicles road_length
          current_acc lc fc acc c = acc ∨
        (Vehicle.mobilConsider sq self vehicles road_length current_acc lc fc
            acc c =
          (c, self.mobilBiasedAdvantage sq vehicles road_length current_acc
            lc fc c) ∧
         self.is_lane_change_safe sq
           (self.find_neighbors vehicles c road_length).1
           (self.find_neighbors vehicles c road_length).2 road_length = true ∧
         self.mobilBiasedAdvantage sq vehicles road_length current_acc lc fc c >
           acc.2 ∧
         gtThreshold (self.mobilBiasedAdvantage sq vehicles road_length
           current_acc lc fc c) self.driver_type.changing_threshold) := by
      simp only [Vehicle.mobilConsider]
      split_ifs with h1 h2
      · exact Or.inr ⟨rfl, h1, h2.1, h2.2⟩
      · exact Or.inl rfl
      · exact Or.inl rfl
    rcases hstep with h | ⟨heq, hsafe, hgt, hth⟩
    · rw [h] at hr
      rcases ih acc r hr with h1 | ⟨hm, hs, hadv, hgt, hth⟩
      · left; exact h1
      · right; exact ⟨List.mem_cons_of_mem c hm, hs, hadv, hgt, hth⟩
    · rw [heq] at hr
      rcases ih _ r hr with h1 | ⟨hm, hs, hadv, hgt2, hth2⟩
      · right
        rw [h1]
        exact ⟨List.mem_cons_self c cs, hsafe, rfl, hgt, hth⟩
      · right
        exact ⟨List.mem_cons_of_mem c hm, hs, hadv, lt_trans hgt hgt2, hth2⟩

/-- C3 amended: the MOBIL utility of calculate_lane_change_advantage is
`(a_self_target - a_self_current) - p * ((a_follower_target_before -
a_follower_target_after) + max(0, a_follower_current_before -
a_follower_current_after))` — the follower terms are oriented
before-minus-after, opposite to the claim's wording — the right-lane
bias is added when the target lane index is greater, and a change is
committed only when the chosen candidate is safe and its biased
advantage exceeds max(0, Δath). -/
theorem C3_utility_and_decision :
    (∀ (sq : ℚ → ℚ) (self : Vehicle) (current_acc : ℚ)
        (lead_current follow_current lead_target follow_target : Option Vehicle)
        (target_lane : Nat),
      self.calculate_lane_change_advantage sq current_acc lead_current
          follow_current lead_target follow_target target_lane =
        specCorrectedUtility sq self current_acc lead_current follow_current
          lead_target follow_target target_lane) ∧
    (∀ (sq : ℚ → ℚ) (self : Vehicle) (vehicles : List Vehicle)
        (lanes_count : Nat) (road_length : ℚ),
      Vehicle.mobil_decide_lane_change sq self vehicles lanes_count
          road_length ≠ self.lane →
      (self.is_lane_change_safe sq
        (self.find_neighbors vehicles (Vehicle.mobil_decide_lane_change sq self
          vehicles lanes_count road_length) road_length).1
        (self.find_neighbors vehicles (Vehicle.mobil_decide_lane_change sq self
          vehicles lanes_count road_length) road_length).2 road_length = true ∧
       self.mobilBiasedAdvantage sq vehicles road_length self.acceleration
         (self.find_neighbors vehicles self.lane road_length).1
         (self.find_neighbors vehicles self.lane road_length).2
         (Vehicle.mobil_decide_lane_change sq self vehicles lanes_count
           road_length) > 0 ∧
       gtThreshold
         (self.mobilBiasedAdvantage sq vehicles road_length self.acceleration
           (self.find_neighbors vehicles self.lane road_length).1
           (self.find_neighbors vehicles self.lane road_length).2
           (Vehicle.mobil_decide_lane_change sq self vehicles lanes_count
             road_length))
         self.driver_type.changing_threshold)) := by
  constructor
  · intro sq self current_acc lead_current follow_current lead_target
      follow_target target_lane
    unfold Vehicle.calculate_lane_change_advantage specCorrectedUtility
    cases follow_target <;> cases follow_current <;> rfl
  · intro sq self vehicles lanes_count road_length hne
    by_cases hobs : self.driver_type = DriverType.obstacle
    · exact absurd (by rw [Vehicle.mobil_decide_lane_change, if_pos hobs]) hne
    · by_cases hdis : self.is_distracted = true
      · exact absurd (by
          rw [Vehicle.mobil_decide_lane_change, if_neg hobs, if_pos hdis]) hne
      · have hmob : Vehicle.mobil_decide_lane_change sq self vehicles
            lanes_count road_length =
            (((if self.lane > 0 then [self.lane - 1] else []) ++
              (if self.lane < lanes_count - 1 then [self.lane + 1] else [])).foldl
                (Vehicle.mobilConsider sq self vehicles road_length
                  self.acceleration
                  (self.find_neighbors vehicles self.lane road_length).1
                  (self.find_neighbors vehicles self.lane road_length).2)
                (self.lane, 0)).1 := by
          rw [Vehicle.mobil_decide_lane_change, if_neg hobs, if_neg hdis]
        rcases mobilFold_spec sq self vehicles road_length self.acceleration
            (self.find_neighbors vehicles self.lane road_length).1
            (self.find_neighbors vehicles self.lane road_length).2
            ((if self.lane > 0 then [self.lane - 1] else []) ++
              (if self.lane < lanes_count - 1 then [self.lane + 1] else []))
            (self.lane, 0) _ rfl with heq | ⟨hm, hs, hadv, hgt, hth⟩
        · exact absurd (by rw [hmob, heq]) hne
        · rw [hmob]
          refine ⟨hs, ?_, ?_⟩
          · rw [← hadv]; exact hgt
          · rw [← hadv]; exact hth

/-- C3 amended witness: an ego with stored acceleration -1 next to an
empty faster lane commits the change, and the committed candidate is
safe with biased advantage 13/10 > max(0, 1/10). -/
theorem C3_utility_and_decision_witness :
    (Vehicle.calculate_lane_change_advantage cSq cSelf3 0 none none none
        (some cF3) 1 =
      specCorrectedUtility cSq cSelf3 0 none none none (some cF3) 1) ∧
    (Vehicle.mobil_decide_lane_change cSq cSelfW3 [cSelfW3] 2 1000 ≠
      cSelfW3.lane) ∧
    (cSelfW3.is_lane_change_safe cSq
      (cSelfW3.find_neighbors [cSelfW3] (Vehicle.mobil_decide_lane_change cSq
        cSelfW3 [cSelfW3] 2 1000) 1000).1
      (cSelfW3.find_neighbors [cSelfW3] (Vehicle.mobil_decide_lane_change cSq
        cSelfW3 [cSelfW3] 2 1000) 1000).2 1000 = true ∧
     cSelfW3.mobilBiasedAdvantage cSq [cSelfW3] 1000 cSelfW3.acceleration
       (cSelfW3.find_neighbors [cSelfW3] cSelfW3.lane 1000).1
       (cSelfW3.find_neighbors [cSelfW3] cSelfW3.lane 1000).2
       (Vehicle.mobil_decide_lane_change cSq cSelfW3 [cSelfW3] 2 1000) > 0 ∧
     gtThreshold
       (cSelfW3.mobilBiasedAdvantage cSq [cSelfW3] 1000 cSelfW3.acceleration
         (cSelfW3.find_neighbors [cSelfW3] cSelfW3.lane 1000).1
         (cSelfW3.find_neighbors [cSelfW3] cSelfW3.lane 1000).2
         (Vehicle.mobil_decide_lane_change cSq cSelfW3 [cSelfW3] 2 1000))
       cSelfW3.driver_type.changing_threshold) :=
  ⟨C3_utility_and_decision.1 cSq cSelf3 0 none none none (some cF3) 1,
   by
    norm_num [Vehicle.mobil_decide_lane_change, Vehicle.mobilConsider,
      Vehicle.mobilBiasedAdvantage, Vehicle.is_lane_change_safe,
      Vehicle.calculate_lane_change_advantage, Vehicle.find_neighbors,
      Vehicle.neighborStep, Vehicle.neighborDistance, Vehicle.selfClone,
      Vehicle.idm_acceleration, Vehicle.aFree, Vehicle.sStar,
      Vehicle.idmEffectiveGap, Vehicle.idmAdjustedGap, Vehicle.idmRawGap,
      gtThreshold, ltMinSoFar, cSelfW3, testVehicle, cSq, normal_ne_obstacle,
      DriverType.time_headway, DriverType.min_gap, DriverType.max_acceleration,
      DriverType.comfortable_deceleration, DriverType.delta,
      DriverType.politeness, DriverType.right_bias,
      DriverType.changing_threshold],
   C3_utility_and_decision.2 cSq cSelfW3 [cSelfW3] 2 1000
     (by
      norm_num [Vehicle.mobil_decide_lane_change, Vehicle.mobilConsider,
        Vehicle.mobilBiasedAdvantage, Vehicle.is_lane_change_safe,
        Vehicle.calculate_lane_change_advantage, Vehicle.find_neighbors,
        Vehicle.neighborStep, Vehicle.neighborDistance, Vehicle.selfClone,
        Vehicle.idm_acceleration, Vehicle.aFree, Vehicle.sStar,
        Vehicle.idmEffectiveGap, Vehicle.idmAdjustedGap, Vehicle.idmRawGap,
        gtThreshold, ltMinSoFar, cSelfW3, testVehicle, cSq, normal_ne_obstacle,
        DriverType.time_headway, DriverType.min_gap, DriverType.max_acceleration,
        DriverType.comfortable_deceleration, DriverType.delta,
        DriverType.politeness, DriverType.right_bias,
        DriverType.changing_threshold])⟩

/-! Claim C6. -/

/-- C6 counterexample: with two entries both due at time 0 on an empty
road, deploy_scheduled_vehicle deploys the first and then stops (the
loop breaks after one successful deployment), so the second due entry
is still pending — neither deployed nor dropped — when the tick ends. -/
theorem C6_counterexample :
    (TrafficSimulation.deploy_scheduled_vehicle cWorld6).map
        (fun w => (w.scheduled_vehicles, w.vehicles.length)) =
      some ([cE2], 1) ∧
    cE2.deployment_time ≤ cWorld6.time := by
  constructor
  · norm_num [TrafficSimulation.deploy_scheduled_vehicle, deployGo, spawnLoop,
      spawnAttempt, popAt, mkDeployedVehicle, cWorld6, testWorld, cE1, cE2]
  · norm_num [cE2, cWorld6, testWorld]

theorem deployGo_length (obstacles : List Obstacle) (road_length : ℚ)
    (lanes_count : Nat) (time : ℚ) :
    ∀ (copy : List Sched) (i : Nat) (live : List Sched)
      (vehicles : List Vehicle) (s : List Sched × List Vehicle),
      deployGo obstacles road_length lanes_count time i copy live vehicles =
        some s →
      s.2.length ≤ vehicles.length + 1 := by
  intro copy
  induction copy with
  | nil =>
    intro i live vehicles s h
    simp only [deployGo] at h
    injection h with h2
    rw [← h2]
    exact Nat.le_succ _
  | cons info rest ih =>
    intro i live vehicles s h
    simp only [deployGo] at h
    split at h
    · split at h
      · split at h
        · exact absurd h (by simp)
        · exact ih _ _ _ _ h
      · split at h
        · exact absurd h (by simp)
        · injection h with h2
          rw [← h2]
          simp
    · exact ih _ _ _ _ h

/-- C6 amended: a tick's deployment phase examines due entries in
order, dropping undeployable ones, but stops at the first successful
deployment: at most one vehicle is added per tick, so several
simultaneously due entries are not all handled in the same tick. -/
theorem C6_at_most_one_deploy (w w2 : World)
    (h : TrafficSimulation.deploy_scheduled_vehicle w = some w2) :
    w2.vehicles.length ≤ w.vehicles.length + 1 ∧ w2.time = w.time := by
  unfold TrafficSimulation.deploy_scheduled_vehicle at h
  cases hd : deployGo w.obstacles w.road_length w.lanes_count w.time 0
      w.scheduled_vehicles w.scheduled_vehicles w.vehicles with
  | none => rw [hd] at h; exact absurd h (by simp)
  | some s =>
    rw [hd] at h
    injection h with h2
    rw [← h2]
    exact ⟨deployGo_length w.obstacles w.road_length w.lanes_count w.time
      w.scheduled_vehicles 0 w.scheduled_vehicles w.vehicles s hd, rfl⟩

/-- C6 amended witness at the concrete two-due-entries scenario. -/
theorem C6_at_most_one_deploy_witness :
    TrafficSimulation.deploy_scheduled_vehicle cWorld6 = some cWorld6out ∧
    (cWorld6out.vehicles.length ≤ cWorld6.vehicles.length + 1 ∧
      cWorld6out.time = cWorld6.time) :=
  ⟨by
    norm_num [TrafficSimulation.deploy_scheduled_vehicle, deployGo, spawnLoop,
      spawnAttempt, popAt, mkDeployedVehicle, cWorld6, cWorld6out, testWorld,
      cE1, cE2],
   C6_at_most_one_deploy cWorld6 cWorld6out (by
    norm_num [TrafficSimulation.deploy_scheduled_vehicle, deployGo, spawnLoop,
      spawnAttempt, popAt, mkDeployedVehicle, cWorld6, cWorld6out, testWorld,
      cE1, cE2])⟩

/-! Claim C7. -/

theorem zoneCapFold_spec (t : ℚ) (v : Vehicle) :
    ∀ (zones : List PositionalDistraction) (acc : Option ℚ),
      (∀ q, acc = some q →
        ∃ c, zones.foldl (zoneCapStep t v) acc = some c ∧ c ≤ q) ∧
      (∀ z ∈ zones, z.activeAt t → |v.position - z.position| ≤ z.range →
        ∃ c, zones.foldl (zoneCapStep t v) acc = some c ∧
          c ≤ z.slowness * v.desired_velocity) ∧
      ((∀ z ∈ zones, ¬(z.activeAt t ∧ |v.position - z.position| ≤ z.range)) →
        zones.foldl (zoneCapStep t v) acc = acc) := by
  intro zones
  induction zones with
  | nil =>
    intro acc
    refine ⟨fun q hq => ⟨q, by simp [hq], le_refl q⟩, by simp, fun _ => by simp⟩
  | cons z zs ih =>
    intro acc
    by_cases hc : z.activeAt t ∧ |v.position - z.position| ≤ z.range
    · cases acc with
      | none =>
        have hstep : zoneCapStep t v none z =
            some (z.slowness * v.desired_velocity) := by
          simp [zoneCapStep, hc]
        refine ⟨?_, ?_, ?_⟩
        · intro q hq; exact absurd hq (by simp)
        · intro z2 hz2 ha hr
          rcases List.mem_cons.mp hz2 with rfl | hz3
          · obtain ⟨c, hcz, hle⟩ :=
              (ih (some (z2.slowness * v.desired_velocity))).1
                (z2.slowness * v.desired_velocity) rfl
            exact ⟨c, by rw [List.foldl_cons, hstep]; exact hcz, hle⟩
          · obtain ⟨c, hcz, hle⟩ :=
              (ih (some (z.slowness * v.desired_velocity))).2.1 z2 hz3 ha hr
            exact ⟨c, by rw [List.foldl_cons, hstep]; exact hcz, hle⟩
        · intro hall
          exact absurd hc (hall z (List.mem_cons_self z zs))
      | some q0 =>
        have hstep : zoneCapStep t v (some q0) z =
            some (min q0 (z.slowness * v.desired_velocity)) := by
          simp [zoneCapStep, hc]
        refine ⟨?_, ?_, ?_⟩
        · intro q hq
          obtain rfl : q0 = q := by injection hq
          obtain ⟨c, hcz, hle⟩ :=
            (ih (some (min q0 (z.slowness * v.desired_velocity)))).1
              (min q0 (z.slowness * v.desired_velocity)) rfl
          exact ⟨c, by rw [List.foldl_cons, hstep]; exact hcz,
            le_trans hle (min_le_left _ _)⟩
        · intro z2 hz2 ha hr
          rcases List.mem_cons.mp hz2 with rfl | hz3
          · obtain ⟨c, hcz, hle⟩ :=
              (ih (some (min q0 (z2.slowness * v.desired_velocity)))).1
                (min q0 (z2.slowness * v.desired_velocity)) rfl
            exact ⟨c, by rw [List.foldl_cons, hstep]; exact hcz,
              le_trans hle (min_le_right _ _)⟩
          · obtain ⟨c, hcz, hle⟩ :=
              (ih (some (min q0 (z.slowness * v.desired_velocity)))).2.1
                z2 hz3 ha hr
            exact ⟨c, by rw [List.foldl_cons, hstep]; exact hcz, hle⟩
        · intro hall
          exact absurd hc (hall z (List.mem_cons_self z zs))
    · have hstep : zoneCapStep t v acc z = acc := by
        simp [zoneCapStep, hc]
      refine ⟨?_, ?_, ?_⟩
      · intro q hq
        obtain ⟨c, hcz, hle⟩ := (ih acc).1 q hq
        exact ⟨c, by rw [List.foldl_cons, hstep]; exact hcz, hle⟩
      · intro z2 hz2 ha hr
        rcases List.mem_cons.mp hz2 with rfl | hz3
        · exact absurd ⟨ha, hr⟩ hc
        · obtain ⟨c, hcz, hle⟩ := (ih acc).2.1 z2 hz3 ha hr
          exact ⟨c, by rw [List.foldl_cons, hstep]; exact hcz, hle⟩
      · intro hall
        rw [List.foldl_cons, hstep]
        exact (ih acc).2.2 (fun z2 hz3 => hall z2 (List.mem_cons_of_mem z hz3))

/-- C7: whenever a positional-distraction zone is active and covers a
non-obstacle vehicle's position, the applied velocity is capped at
slowness · v₀; the cap never raises the velocity, overlapping zones
compose by the minimum (the result is below every applicable zone's
cap), and with no applicable zone the velocity is unchanged. -/
theorem C7_positional_distraction_cap (zones : List PositionalDistraction)
    (t : ℚ) (v : Vehicle) (hobs : v.driver_type ≠ DriverType.obstacle) :
    (applyPositionalDistractions zones t v).velocity ≤ v.velocity ∧
    (∀ z ∈ zones, z.activeAt t → |v.position - z.position| ≤ z.range →
      (applyPositionalDistractions zones t v).velocity ≤
        z.slowness * v.desired_velocity) ∧
    ((∀ z ∈ zones, ¬(z.activeAt t ∧ |v.position - z.position| ≤ z.range)) →
      (applyPositionalDistractions zones t v).velocity = v.velocity) := by
  unfold applyPositionalDistractions
  rw [if_neg hobs]
  refine ⟨?_, ?_, ?_⟩
  · cases hf : zones.foldl (zoneCapStep t v) none with
    | none => exact le_refl _
    | some c => exact min_le_left _ _
  · intro z hz ha hr
    obtain ⟨c, hcz, hle⟩ := (zoneCapFold_spec t v zones none).2.1 z hz ha hr
    rw [hcz]
    exact le_trans (min_le_right _ _) hle
  · intro hall
    rw [(zoneCapFold_spec t v zones none).2.2 hall]

/-- C7 witness: a concrete active zone covering a concrete vehicle. -/
theorem C7_positional_distraction_cap_witness :
    cVeh7.driver_type ≠ DriverType.obstacle ∧
    cZone7.activeAt 5 ∧ |cVeh7.position - cZone7.position| ≤ cZone7.range ∧
    (applyPositionalDistractions [cZone7] 5 cVeh7).velocity ≤ cVeh7.velocity ∧
    (applyPositionalDistractions [cZone7] 5 cVeh7).velocity ≤
      cZone7.slowness * cVeh7.desired_velocity :=
  ⟨by simp [cVeh7, testVehicle],
   by norm_num [PositionalDistraction.activeAt, cZone7],
   by norm_num [cVeh7, cZone7, testVehicle],
   (C7_positional_distraction_cap [cZone7] 5 cVeh7
     (by simp [cVeh7, testVehicle])).1,
   (C7_positional_distraction_cap [cZone7] 5 cVeh7
     (by simp [cVeh7, testVehicle])).2.1 cZone7 (List.mem_cons_self _ _)
     (by norm_num [PositionalDistraction.activeAt, cZone7])
     (by norm_num [cVeh7, cZone7, testVehicle])⟩

/-! Claim C10. -/

theorem deploy_preserves (w w1 : World)
    (h : TrafficSimulation.deploy_scheduled_vehicle w = some w1) :
    w1.time = w.time ∧ w1.dt = w.dt ∧ w1.is_paused = w.is_paused := by
  unfold TrafficSimulation.deploy_scheduled_vehicle at h
  cases hd : deployGo w.obstacles w.road_length w.lanes_count w.time 0
      w.scheduled_vehicles w.scheduled_vehicles w.vehicles with
  | none => rw [hd] at h; exact absurd h (by simp)
  | some s =>
    rw [hd] at h
    injection h with h2
    rw [← h2]
    exact ⟨rfl, rfl, rfl⟩

theorem run_step_time (sq : ℚ → ℚ) (os : Nat → Oracle) (w w2 : World)
    (hp : w.is_paused = false)
    (h : TrafficSimulation.run_step sq os w = some w2) :
    w2.time = w.time + w.dt ∧ w2.dt = w.dt ∧ w2.is_paused = false := by
  unfold TrafficSimulation.run_step at h
  rw [hp] at h
  simp only [Bool.false_eq_true, if_false] at h
  cases hd : TrafficSimulation.deploy_scheduled_vehicle w with
  | none => rw [hd] at h; exact absurd h (by simp)
  | some w1 =>
    rw [hd] at h
    obtain ⟨ht, hdt, hpp⟩ := deploy_preserves w w1 hd
    injection h with h2
    rw [← h2]
    refine ⟨?_, ?_, ?_⟩
    · show w1.time + w1.dt = w.time + w.dt
      rw [ht, hdt]
    · exact hdt
    · rw [show ({ w1 with
        vehicles := updateAllVehicles sq os w1.dt w1.lanes_count w1.road_length
          w1.time w1.vehicles,
        lane_changes := _, average_speeds := _, lane_distributions := _,
        time := w1.time + w1.dt } : World).is_paused = w1.is_paused from rfl,
        hpp, hp]

theorem runStepsGo_time (sq : ℚ → ℚ) (oss : Nat → Nat → Oracle) :
    ∀ (n i : Nat) (w w2 : World), w.is_paused = false →
      runStepsGo sq oss i n w = some w2 →
      w2.time = w.time + (n : ℚ) * w.dt ∧ w2.dt = w.dt ∧
        w2.is_paused = false := by
  intro n
  induction n with
  | zero =>
    intro i w w2 hp h
    simp only [runStepsGo] at h
    injection h with h2
    rw [← h2]
    refine ⟨by push_cast; ring, rfl, hp⟩
  | succ n ih =>
    intro i w w2 hp h
    simp only [runStepsGo] at h
    cases hs : TrafficSimulation.run_step sq (oss i) w with
    | none => rw [hs] at h; exact absurd h (by simp)
    | some w1 =>
      rw [hs] at h
      obtain ⟨ht1, hdt1, hp1⟩ := run_step_time sq (oss i) w w1 hp hs
      obtain ⟨ht2, hdt2, hp2⟩ := ih (i + 1) w1 w2 hp1 h
      refine ⟨?_, by rw [hdt2, hdt1], hp2⟩
      rw [ht2, ht1, hdt1]
      push_cast
      ring

/-- C10 amended: an n-step run without animation advances the time by
exactly n·dt (when not paused and every step succeeds) and returns the
mean velocity over the vehicles present at the end of the run — the
final tick's vehicle-mean, not the time-average of the per-tick means —
with -1 when the final vehicle list is empty. -/
theorem C10_run_result (sq : ℚ → ℚ) (oss : Nat → Nat → Oracle) (w : World)
    (steps : Nat) (w2 : World) (r : ℚ) (hp : w.is_paused = false)
    (h : TrafficSimulation.run_without_animation sq oss w steps =
      some (w2, r)) :
    w2.time = w.time + (steps : ℚ) * w.dt ∧
    r = (if w2.vehicles.length ≠ 0 then
        (w2.vehicles.map Vehicle.velocity).sum / (w2.vehicles.length : ℚ)
      else -1) := by
  unfold TrafficSimulation.run_without_animation at h
  cases hg : runStepsGo sq oss 0 steps w with
  | none => rw [hg] at h; exact absurd h (by simp)
  | some w3 =>
    rw [hg] at h
    injection h with h2
    rw [Prod.mk.injEq] at h2
    obtain ⟨hw, hr⟩ := h2
    constructor
    · rw [← hw]
      exact (runStepsGo_time sq oss steps 0 w w3 hp hg).1
    · rw [← hw]
      exact hr.symm

theorem run_step_cWorld10 :
    TrafficSimulation.run_step cSq (cOss 0) cWorld10 = some cW10a := by
  norm_num [TrafficSimulation.run_step, TrafficSimulation.deploy_scheduled_vehicle,
    deployGo, cWorld10, cW10a, cV10a, testWorld, updateAllVehicles,
    updateVehiclesGo, Vehicle.update, Vehicle.check_distraction,
    Vehicle.find_neighbors, Vehicle.neighborStep, Vehicle.idm_acceleration,
    Vehicle.aFree, Vehicle.updatedVelocity, testVehicle, cOss, cOracle, cSq,
    dictLookup, normal_ne_obstacle, DriverType.max_acceleration,
    DriverType.delta]

theorem run_step_cW10a :
    TrafficSimulation.run_step cSq (cOss 1) cW10a = some cW10b := by
  norm_num [TrafficSimulation.run_step, TrafficSimulation.deploy_scheduled_vehicle,
    deployGo, cWorld10, cW10a, cV10a, cW10b, cV10b, testWorld, updateAllVehicles,
    updateVehiclesGo, Vehicle.update, Vehicle.check_distraction,
    Vehicle.find_neighbors, Vehicle.neighborStep, Vehicle.idm_acceleration,
    Vehicle.aFree, Vehicle.updatedVelocity, testVehicle, cOss, cOracle, cSq,
    dictLookup, normal_ne_obstacle, DriverType.max_acceleration,
    DriverType.delta]

/-- C10 counterexample: a two-step run on a single accelerating vehicle
returns the final tick's mean velocity, which differs from the
time-average of the recorded per-tick mean velocities. -/
theorem C10_counterexample :
    TrafficSimulation.run_without_animation cSq cOss cWorld10 2 =
      some (cW10b, 2265035907180226867771197/102400000000000000000000) ∧
    specMeanVelocityOverRun cW10b ≠
      2265035907180226867771197/102400000000000000000000 := by
  constructor
  · unfold TrafficSimulation.run_without_animation
    have hg : runStepsGo cSq cOss 0 2 cWorld10 = some cW10b := by
      show (match TrafficSimulation.run_step cSq (cOss 0) cWorld10 with
        | none => none
        | some w2 => runStepsGo cSq cOss 1 1 w2) = some cW10b
      rw [run_step_cWorld10]
      show (match TrafficSimulation.run_step cSq (cOss 1) cW10a with
        | none => none
        | some w2 => runStepsGo cSq cOss 2 0 w2) = some cW10b
      rw [run_step_cW10a]
      rfl
    rw [hg]
    norm_num [cW10b, cV10b, cWorld10, testWorld, testVehicle]
  · norm_num [specMeanVelocityOverRun, cW10b, cV10b, cWorld10, testWorld,
      testVehicle]

/-- C10 amended witness: a one-step run on the concrete world. -/
theorem C10_run_result_witness :
    cWorld10.is_paused = false ∧
    TrafficSimulation.run_without_animation cSq cOss cWorld10 1 =
      some (cW10a, 862797/40000) ∧
    (cW10a.time = cWorld10.time + ((1 : Nat) : ℚ) * cWorld10.dt ∧
     (862797/40000 : ℚ) = (if cW10a.vehicles.length ≠ 0 then
        (cW10a.vehicles.map Vehicle.velocity).sum / (cW10a.vehicles.length : ℚ)
      else -1)) := by
  have hrun : TrafficSimulation.run_without_animation cSq cOss cWorld10 1 =
      some (cW10a, 862797/40000) := by
    unfold TrafficSimulation.run_without_animation
    have hg : runStepsGo cSq cOss 0 1 cWorld10 = some cW10a := by
      show (match TrafficSimulation.run_step cSq (cOss 0) cWorld10 with
        | none => none
        | some w2 => runStepsGo cSq cOss 1 0 w2) = some cW10a
      rw [run_step_cWorld10]
      rfl
    rw [hg]
    norm_num [cW10a, cV10a, cWorld10, testWorld, testVehicle]
  exact ⟨rfl, hrun,
    C10_run_result cSq cOss cWorld10 1 cW10a (862797/40000) rfl hrun⟩

end Traffic
